import Mathlib

/-!
OpenModelica simulation runtime (simulation_runtime.cpp)

A shallow embedding of the parts of `simulation_runtime.cpp` that select the
integrator (`callSolver`), bind the result stream (`initializeResultData`), mark variables
for the result file (`initializeOutputFilter`), choose the log streams
(`setGlobalVerboseLevel`), handle assertions and terminations
(`omc_assert_simulation`, `omc_terminate_simulation`, `omc_throw_simulation`) and
drive a run (`initRuntimeAndSimulation`, `startNonInteractiveSimulation`,
`_main_SimulationRuntime`).

Conventions of the embedding

* C strings are `String`; `strcmp(a, b) == 0` and `std::string ==` are `=`.
* Global variables of the translation unit are the fields of `Globals`, passed
  explicitly; every call of an external routine or of a logging facility is
  appended to `Globals.trace`, in program order.
* Function pointers stored in `sim_result` are recorded by the family of the
  implementation they point to (`ResultImpl`).
* An access `a[i]` outside the array is undefined behaviour in C; functions that
  index arrays return `Option`, with `none` for such an access.
* A non-local jump (`THROW`, `longjmp`) ends the current call with
  `Outcome.thrown`; a normal `return v` is `Outcome.returned v`. The functions of
  the start-up and of the error handling end with a `Control`, which also names
  the target of the jump and the exit of the process.
* A loop without a syntactic bound takes a bound on its rounds; `none` stands for
  a bound that was too small, and a lemma shows the bound used never is.
-/

namespace SimulationRuntime

/-! ## Data model -/

/-- Family of result-file writers a hook of `sim_result` can point to:
`noemit` is the default no-op sink, `csv` stands for `csv_init`, `csv_emit`,
`csv_free`, `mat4` for `mat4_init`, `mat4_emit`, `mat4_writeParameterData`,
`mat4_free`, and `plt` for `plt_init`, `plt_emit`, `plt_free`. -/
inductive ResultImpl
  | noemit
  | csv
  | mat4
  | plt
  deriving DecidableEq, Repr

/-- The global `sim_result` object: file name, capacity hint, cpu-time switch and
the four hooks. -/
structure SIMULATION_RESULT where
  filename : String
  numpoints : Int
  cpuTime : Int
  init : ResultImpl
  emit : ResultImpl
  writeParameterData : ResultImpl
  free : ResultImpl
  deriving DecidableEq, Repr

/-- Observable calls made by the runtime, in the order they happen. -/
inductive Event
  | cerr (text : String)
  | warning (fmt : String) (args : List String)
  | info (fmt : String) (args : List String)
  | result_init (impl : ResultImpl)
  | result_free (impl : ResultImpl)
  | solver_main (solverID : Nat)
  deriving DecidableEq, Repr

/-- The file-level variables read or written by the embedded functions. -/
structure Globals where
  interactiveSimulation : Int
  sim_noemit : Int
  sim_result : SIMULATION_RESULT
  trace : List Event
  deriving DecidableEq, Repr

/-- Append one observable call to the trace. -/
def Globals.log (g : Globals) (e : Event) : Globals :=
  { g with trace := g.trace ++ [e] }

/-- How a call ends: by `return retVal`, or by a non-local jump to the
top-level recovery point `globalJmpbuf` (what `THROW` does; the `setjmp` branch
of `_main_SimulationRuntime` is commented "THROW was executed"). -/
inductive Outcome
  | returned (retVal : Int)
  | thrown (msg : String)
  deriving DecidableEq, Repr

/-- Modelled from the spec: the macro `THROW` of `omc_error.h`. It reports `msg`
and leaves the running call by a non-local jump to the top-level run function
(`globalJmpbuf`), so no statement after it is executed. -/
def THROW (msg : String) (g : Globals) : Outcome × Globals :=
  (Outcome.thrown msg, g)

/-- Name and output flag of one variable or parameter (`info.name` and
`filterOutput` of `STATIC_REAL_DATA`, `STATIC_INTEGER_DATA`, ...); the
`modelica_boolean` flag is `true` for 1 (excluded from the result file). -/
structure STATIC_VAR_DATA where
  name : String
  filterOutput : Bool
  deriving DecidableEq, Repr

/-- One alias entry (`DATA_REAL_ALIAS`, ...): its name, the index `nameID` of its
target, the kind of the target (`aliasType` 0: variable, 1: parameter) and its
own output flag. -/
structure DATA_ALIAS where
  name : String
  nameID : Nat
  aliasType : Int
  filterOutput : Bool
  deriving DecidableEq, Repr

/-- The fields of `MODEL_DATA` used by the output filter. -/
structure MODEL_DATA where
  realVarsData : List STATIC_VAR_DATA
  integerVarsData : List STATIC_VAR_DATA
  booleanVarsData : List STATIC_VAR_DATA
  stringVarsData : List STATIC_VAR_DATA
  realParameterData : List STATIC_VAR_DATA
  integerParameterData : List STATIC_VAR_DATA
  booleanParameterData : List STATIC_VAR_DATA
  stringParameterData : List STATIC_VAR_DATA
  realAlias : List DATA_ALIAS
  integerAlias : List DATA_ALIAS
  booleanAlias : List DATA_ALIAS
  stringAlias : List DATA_ALIAS
  nStates : Int
  nVariablesReal : Int
  nVariablesInteger : Int
  nVariablesBoolean : Int
  nVariablesString : Int
  nAliasReal : Int
  nAliasInteger : Int
  nAliasBoolean : Int
  nAliasString : Int
  deriving DecidableEq, Repr

/-- The fields of `SIMULATION_INFO` used here. -/
structure SIMULATION_INFO where
  numSteps : Int
  outputFormat : String
  variableFilter : String
  solverMethod : String
  deriving DecidableEq, Repr

/-- The simulation data handed to the runtime (`DATA`). -/
structure DATA where
  modelData : MODEL_DATA
  simulationInfo : SIMULATION_INFO
  deriving DecidableEq, Repr

/-- The integrator enumeration and its name tables. They are declared in
`solver_main.h`, outside the translated file, so they are taken as
a parameter: `S_MAX` entries, of which `1 .. S_MAX-1` are the registered
integrators. -/
structure SolverMethods where
  S_MAX : Nat
  S_DASSL : Nat
  SOLVER_METHOD_NAME : Nat → String
  SOLVER_METHOD_DESC : Nat → String

/-- Modelled from the spec: the enumerator `S_UNKNOWN` of the integrator
enumeration (declared in `solver_main.h`). It is the "unknown" identifier, the
first entry, 0; the registered integrators are the entries `1 .. S_MAX-1`, over
which the loops of `callSolver` run. -/
def S_UNKNOWN : Nat := 0

/-! ## Result-stream dispatch -/

/-- Source: `isInteractiveSimulation`, which returns the file-level flag. -/
def isInteractiveSimulation (g : Globals) : Int :=
  g.interactiveSimulation

/-- Lines 662-664 of `initializeResultData`: call the bound `init` hook, log,
and return 0. -/
def initializeResultData_finish (simData : DATA) (g : Globals) : Int × Globals :=
  let g := g.log (Event.result_init g.sim_result.init)
  let g := g.log (Event.info
    "Allocated simulation result data storage for method '%s' and file='%s'"
    [simData.simulationInfo.outputFormat, g.sim_result.filename])
  (0, g)

/-- The value of an arithmetic result stored in the C type `long` (64 bits, two's
complement): a result outside the range wraps around. -/
def wrapLong (x : Int) : Int :=
  (x + 2 ^ 63) % 2 ^ 64 - 2 ^ 63

/-- Source: `initializeResultData`. Returns the status and the new globals. -/
def initializeResultData (simData : DATA) (result_file_cstr : String) (cpuTime : Int)
    (g : Globals) : Int × Globals :=
  let maxSteps := wrapLong (4 * simData.simulationInfo.numSteps)
  let g := { g with sim_result := { g.sim_result with
    filename := result_file_cstr, numpoints := maxSteps, cpuTime := cpuTime } }
  if isInteractiveSimulation g ≠ 0 ∨ g.sim_noemit ≠ 0
      ∨ simData.simulationInfo.outputFormat = "empty" then
    -- Default is set to noemit
    initializeResultData_finish simData g
  else if simData.simulationInfo.outputFormat = "csv" then
    initializeResultData_finish simData { g with sim_result := { g.sim_result with
      init := ResultImpl.csv, emit := ResultImpl.csv, free := ResultImpl.csv } }
  else if simData.simulationInfo.outputFormat = "mat" then
    initializeResultData_finish simData { g with sim_result := { g.sim_result with
      init := ResultImpl.mat4, emit := ResultImpl.mat4,
      writeParameterData := ResultImpl.mat4, free := ResultImpl.mat4 } }
  else if simData.simulationInfo.outputFormat = "plt" then
    initializeResultData_finish simData { g with sim_result := { g.sim_result with
      init := ResultImpl.plt, emit := ResultImpl.plt, free := ResultImpl.plt } }
  else
    (1, g.log (Event.cerr ("Unknown output format: " ++ simData.simulationInfo.outputFormat)))

/-! ## Solver method resolution and `callSolver` -/

/-- Lines 688-697 of `callSolver`: the value of `solverID` after the resolution
step. The loop has no `break`, so the last matching index wins. -/
def resolveSolverID (tbl : SolverMethods) (solverMethod : String) : Nat :=
  if "" = solverMethod then
    tbl.S_DASSL
  else
    (List.range' 1 (tbl.S_MAX - 1)).foldl
      (fun solverID i => if tbl.SOLVER_METHOD_NAME i = solverMethod then i else solverID)
      S_UNKNOWN

/-- Lines 703-704 of `callSolver`: one warning per registered integrator, with
its name and description, in table order. -/
def reportSolverMethods (tbl : SolverMethods) (g : Globals) : Globals :=
  (List.range' 1 (tbl.S_MAX - 1)).foldl
    (fun g i => g.log (Event.warning "| %-18s [%s]"
      [tbl.SOLVER_METHOD_NAME i, tbl.SOLVER_METHOD_DESC i]))
    g

/-- The names of the registered integrators, `SOLVER_METHOD_NAME[1 .. S_MAX-1]`,
in table order. -/
def registeredNames (tbl : SolverMethods) : List String :=
  (List.range' 1 (tbl.S_MAX - 1)).map tbl.SOLVER_METHOD_NAME

/-- Lines 701-706 of `callSolver`, the branch for `S_UNKNOWN == solverID`: the
warnings, then `THROW("see last warning")`. The assignment `retVal = 1` that
follows the `THROW` is not reached. -/
def callSolver_unrecognized (tbl : SolverMethods) (simData : DATA) (g : Globals) :
    Outcome × Globals :=
  let g := g.log (Event.warning "unrecognized option -s %s"
    [simData.simulationInfo.solverMethod])
  let g := g.log (Event.warning "current options are:" [])
  let g := reportSolverMethods tbl g
  THROW "see last warning" g

/-- Lines 710-721 of `callSolver`, the branch for a recognized solver (built
without `_OMC_QSS_LIB`): log the name and run `solver_main`, whose status
becomes `retVal`. -/
def callSolver_recognized (tbl : SolverMethods)
    (solver_main : Nat → Globals → Outcome × Globals) (solverID : Nat) (g : Globals) :
    Outcome × Globals :=
  let g := g.log (Event.info "recognized solver: %s" [tbl.SOLVER_METHOD_NAME solverID])
  solver_main solverID (g.log (Event.solver_main solverID))

/-- Lines 724-726 of `callSolver`: `sim_result.free(&sim_result, simData)` and
`return retVal`, for a branch that came back with `retVal`; a branch left by a
non-local jump does not come here. -/
def callSolver_finish (r : Outcome × Globals) : Outcome × Globals :=
  match r.1 with
  | Outcome.returned retVal =>
    (Outcome.returned retVal, r.2.log (Event.result_free r.2.sim_result.free))
  | Outcome.thrown msg => (Outcome.thrown msg, r.2)

/-- Lines 688-726 of `callSolver`: what follows the initialisation of the result
stream. The external `solver_main` is a parameter: given the resolved `solverID`
and the globals it either returns a status or leaves by a non-local jump; the
initialisation arguments that `callSolver` only passes through are part of that
parameter. -/
def callSolver_resolveAndRun (tbl : SolverMethods)
    (solver_main : Nat → Globals → Outcome × Globals) (simData : DATA) (g : Globals) :
    Outcome × Globals :=
  let solverID := resolveSolverID tbl simData.simulationInfo.solverMethod
  callSolver_finish
    (if S_UNKNOWN = solverID then
      callSolver_unrecognized tbl simData g
    else
      callSolver_recognized tbl solver_main solverID g)

/-- Source: `callSolver`. -/
def callSolver (tbl : SolverMethods) (solver_main : Nat → Globals → Outcome × Globals)
    (simData : DATA) (result_file_cstr : String) (cpuTime : Int) (g : Globals) :
    Outcome × Globals :=
  let r := initializeResultData simData result_file_cstr cpuTime g
  if r.1 ≠ 0 then
    (Outcome.returned (-1), r.2)
  else
    callSolver_resolveAndRun tbl solver_main simData r.2

/-! ## Output filter -/

/-- The POSIX regular-expression routines used by the output filter; they
belong to the C library, so they are a parameter. `regcomp p` is the return code
of compiling `p` with `REG_EXTENDED` (0: compiled), and `regexec p s` the return
code of running the compiled `p` on `s` (0: `s` matches). -/
structure RegexLib where
  regcomp : String → Int
  regexec : String → String → Int

/-- A C `return` statement that is followed by further statements of the same
body: the call ends with `result`, the statements `after` it never run. -/
def returnThen {α : Type} (result : α) (_after : Unit → α) : α :=
  result

/-- The assignment `a[i].filterOutput = b`; `none` when `i` is outside `a`. -/
def setFilterOutput (a : List STATIC_VAR_DATA) (i : Nat) (b : Bool) :
    Option (List STATIC_VAR_DATA) :=
  match a[i]? with
  | none => none
  | some v => some (a.set i { v with filterOutput := b })

/-- Lines 340-343 of `initializeOutputFilter`: when the model has states and its
first real variable is the placeholder "$dummy", mark `realVarsData[0]` and
`realVarsData[nStates]` as excluded. -/
def markDummyState (modelData : MODEL_DATA) : Option MODEL_DATA :=
  if modelData.nStates > 0 then
    match modelData.realVarsData[0]? with
    | none => none
    | some v0 =>
      if v0.name = "$dummy" then
        match setFilterOutput modelData.realVarsData 0 true with
        | none => none
        | some a =>
          match setFilterOutput a modelData.nStates.toNat true with
          | none => none
          | some a => some { modelData with realVarsData := a }
      else
        some modelData
  else
    some modelData

/-- The three arrays one alias loop works on: the variables and the parameters
of a category, and its aliases. -/
structure AliasGroup where
  vars : List STATIC_VAR_DATA
  params : List STATIC_VAR_DATA
  aliases : List DATA_ALIAS

/-- The loop over the variables of one category (lines 360-361 and its three
copies): a variable not yet marked is marked iff `regexec` reports no match. -/
def filterVars (re : RegexLib) (filter : String) (n : Int) (vars : List STATIC_VAR_DATA) :
    Option (List STATIC_VAR_DATA) :=
  (List.range n.toNat).foldlM
    (fun vars i =>
      match vars[i]? with
      | none => none
      | some v =>
        if !v.filterOutput then
          some (vars.set i { v with filterOutput := decide (re.regexec filter v.name ≠ 0) })
        else
          some vars)
    vars

/-- One iteration of an alias loop for a target array `targets` (the variables
for `aliasType` 0, the parameters for `aliasType` 1): returns the new target
array and the new alias array. -/
def filterAliasStep (re : RegexLib) (filter : String) (i : Nat) (al : DATA_ALIAS)
    (targets : List STATIC_VAR_DATA) (aliases : List DATA_ALIAS) :
    Option (List STATIC_VAR_DATA × List DATA_ALIAS) :=
  match targets[al.nameID]? with
  | none => none
  | some t =>
    if !al.filterOutput && !t.filterOutput then
      some (targets,
        aliases.set i { al with filterOutput := decide (re.regexec filter al.name ≠ 0) })
    else
      some (targets.set al.nameID { t with filterOutput := false },
        aliases.set i { al with filterOutput := false })

/-- The loop over the aliases of one category (lines 362-384 and its three
copies). -/
def filterAliases (re : RegexLib) (filter : String) (n : Int) (s : AliasGroup) :
    Option AliasGroup :=
  (List.range n.toNat).foldlM
    (fun s i =>
      match s.aliases[i]? with
      | none => none
      | some al =>
        if al.aliasType = 0 then
          (filterAliasStep re filter i al s.vars s.aliases).map
            fun r => { s with vars := r.1, aliases := r.2 }
        else if al.aliasType = 1 then
          (filterAliasStep re filter i al s.params s.aliases).map
            fun r => { s with params := r.1, aliases := r.2 }
        else
          some s)
    s

/-- Lines 350-460 of `initializeOutputFilter`: compile the anchored pattern and
run the per-variable pass over the four categories. (The diagnostic written to
`std::cerr` when the pattern does not compile is not recorded.) -/
def outputFilterPass (re : RegexLib) (filter : String) (modelData : MODEL_DATA) :
    Option MODEL_DATA :=
  if re.regcomp filter ≠ 0 then
    some modelData
  else do
    let rv ← filterVars re filter modelData.nVariablesReal modelData.realVarsData
    let r ← filterAliases re filter modelData.nAliasReal
      { vars := rv, params := modelData.realParameterData, aliases := modelData.realAlias }
    let iv ← filterVars re filter modelData.nVariablesInteger modelData.integerVarsData
    let i ← filterAliases re filter modelData.nAliasInteger
      { vars := iv, params := modelData.integerParameterData, aliases := modelData.integerAlias }
    let bv ← filterVars re filter modelData.nVariablesBoolean modelData.booleanVarsData
    let b ← filterAliases re filter modelData.nAliasBoolean
      { vars := bv, params := modelData.booleanParameterData, aliases := modelData.booleanAlias }
    let sv ← filterVars re filter modelData.nVariablesString modelData.stringVarsData
    let s ← filterAliases re filter modelData.nAliasString
      { vars := sv, params := modelData.stringParameterData, aliases := modelData.stringAlias }
    some { modelData with
      realVarsData := r.vars, realParameterData := r.params, realAlias := r.aliases,
      integerVarsData := i.vars, integerParameterData := i.params, integerAlias := i.aliases,
      booleanVarsData := b.vars, booleanParameterData := b.params, booleanAlias := b.aliases,
      stringVarsData := s.vars, stringParameterData := s.params, stringAlias := s.aliases }

/-- Source: `initializeOutputFilter` (the build without `_MSC_VER`). The
`return` on line 348 ("tas - avoid regcomp") ends every call that passed the
comparison on line 344, so the pass of lines 350-460 stands behind it. -/
def initializeOutputFilter (re : RegexLib) (modelData : MODEL_DATA) (variableFilter : String) :
    Option MODEL_DATA :=
  let tmp := "^(" ++ variableFilter ++ ")$"
  let filter := tmp
  match markDummyState modelData with
  | none => none
  | some modelData =>
    if filter = ".*" then
      -- This matches all variables, so we don't need to do anything
      some modelData
    else
      returnThen (some modelData) fun _ => outputFilterPass re filter modelData

/-- Every `filterOutput` flag of the model is 0: variables, parameters and
aliases of the four categories. -/
def allFlagsClear (md : MODEL_DATA) : Bool :=
  md.realVarsData.all (fun v => !v.filterOutput)
    && md.integerVarsData.all (fun v => !v.filterOutput)
    && md.booleanVarsData.all (fun v => !v.filterOutput)
    && md.stringVarsData.all (fun v => !v.filterOutput)
    && md.realParameterData.all (fun v => !v.filterOutput)
    && md.integerParameterData.all (fun v => !v.filterOutput)
    && md.booleanParameterData.all (fun v => !v.filterOutput)
    && md.stringParameterData.all (fun v => !v.filterOutput)
    && md.realAlias.all (fun v => !v.filterOutput)
    && md.integerAlias.all (fun v => !v.filterOutput)
    && md.booleanAlias.all (fun v => !v.filterOutput)
    && md.stringAlias.all (fun v => !v.filterOutput)

/-- Number of variables and aliases, over the four categories, that are marked
excluded (`filterOutput` = 1). -/
def excludedCount (md : MODEL_DATA) : Nat :=
  md.realVarsData.countP (fun v => v.filterOutput)
    + md.integerVarsData.countP (fun v => v.filterOutput)
    + md.booleanVarsData.countP (fun v => v.filterOutput)
    + md.stringVarsData.countP (fun v => v.filterOutput)
    + md.realAlias.countP (fun v => v.filterOutput)
    + md.integerAlias.countP (fun v => v.filterOutput)
    + md.booleanAlias.countP (fun v => v.filterOutput)
    + md.stringAlias.countP (fun v => v.filterOutput)

/-- The four variable categories of `MODEL_DATA`. -/
inductive Category
  | real
  | integer
  | boolean
  | string
  deriving DecidableEq, Repr

/-- The top-level variables of a category (`realVarsData`, ...). -/
def MODEL_DATA.varsData (md : MODEL_DATA) : Category → List STATIC_VAR_DATA
  | Category.real => md.realVarsData
  | Category.integer => md.integerVarsData
  | Category.boolean => md.booleanVarsData
  | Category.string => md.stringVarsData

/-- The parameters of a category (`realParameterData`, ...). -/
def MODEL_DATA.parameterData (md : MODEL_DATA) : Category → List STATIC_VAR_DATA
  | Category.real => md.realParameterData
  | Category.integer => md.integerParameterData
  | Category.boolean => md.booleanParameterData
  | Category.string => md.stringParameterData

/-- The aliases of a category (`realAlias`, ...). -/
def MODEL_DATA.alias (md : MODEL_DATA) : Category → List DATA_ALIAS
  | Category.real => md.realAlias
  | Category.integer => md.integerAlias
  | Category.boolean => md.booleanAlias
  | Category.string => md.stringAlias

/-- Memory safety of the placeholder rule: a model that has states has a real variable
at index `nStates` (and so one at index 0). -/
def statesInBounds (md : MODEL_DATA) : Prop :=
  md.nStates ≤ 0 ∨ md.nStates.toNat < md.realVarsData.length

/-- The placeholder rule does not apply: the model has no states, or its first
real variable has a name other than "$dummy". -/
def noDummyState (md : MODEL_DATA) : Prop :=
  md.nStates ≤ 0 ∨ ∃ v, md.realVarsData[0]? = some v ∧ v.name ≠ "$dummy"

/-! ## Concrete data for evaluation -/

/-- A stand-in for the C library on concrete inputs: every pattern compiles, and
the anchored pattern `^(p)$` matches exactly the name `p`. -/
def literalRegex : RegexLib where
  regcomp := fun _ => 0
  regexec := fun p s => if p = "^(" ++ s ++ ")$" then 0 else 1

/-- A small integrator table: "euler", "rungekutta" and the default "dassl". -/
def sampleMethods : SolverMethods where
  S_MAX := 4
  S_DASSL := 3
  SOLVER_METHOD_NAME := fun i =>
    match i with
    | 1 => "euler"
    | 2 => "rungekutta"
    | 3 => "dassl"
    | _ => "unknown"
  SOLVER_METHOD_DESC := fun i =>
    match i with
    | 1 => "explicit euler"
    | 2 => "classical runge-kutta"
    | 3 => "default solver"
    | _ => "unknown"

/-- A `solver_main` that returns `status` at once and touches nothing. -/
def constSolver (status : Int) : Nat → Globals → Outcome × Globals :=
  fun _ g => (Outcome.returned status, g)

/-- Globals at program start: non-interactive, emitting, hooks at the no-op default,
nothing traced. -/
def initialGlobals : Globals where
  interactiveSimulation := 0
  sim_noemit := 0
  sim_result :=
    { filename := "", numpoints := 0, cpuTime := 0,
      init := ResultImpl.noemit, emit := ResultImpl.noemit,
      writeParameterData := ResultImpl.noemit, free := ResultImpl.noemit }
  trace := []

/-- A model without variables. -/
def emptyModel : MODEL_DATA where
  realVarsData := []
  integerVarsData := []
  booleanVarsData := []
  stringVarsData := []
  realParameterData := []
  integerParameterData := []
  booleanParameterData := []
  stringParameterData := []
  realAlias := []
  integerAlias := []
  booleanAlias := []
  stringAlias := []
  nStates := 0
  nVariablesReal := 0
  nVariablesInteger := 0
  nVariablesBoolean := 0
  nVariablesString := 0
  nAliasReal := 0
  nAliasInteger := 0
  nAliasBoolean := 0
  nAliasString := 0

/-- A model without continuous states, as the code generator emits it: the
placeholder state "$dummy", its derivative, and one algebraic variable. -/
def dummyModel : MODEL_DATA :=
  { emptyModel with
    realVarsData := [⟨"$dummy", false⟩, ⟨"der($dummy)", false⟩, ⟨"x", false⟩]
    nStates := 1
    nVariablesReal := 3 }

/-- A model with one top-level real variable "x" and one alias "y" of it. -/
def aliasModel : MODEL_DATA :=
  { emptyModel with
    realVarsData := [⟨"x", false⟩]
    realAlias := [⟨"y", 0, 0, false⟩]
    nVariablesReal := 1
    nAliasReal := 1 }

/-- Recognizes a call of the `free` hook of `sim_result`. -/
def isResultFree : Event → Bool
  | Event.result_free _ => true
  | _ => false

/-- Recognizes a call of the `init` hook of `sim_result`. -/
def isResultInit : Event → Bool
  | Event.result_init _ => true
  | _ => false

/-- Recognizes a call of `solver_main`. -/
def isSolverMain : Event → Bool
  | Event.solver_main _ => true
  | _ => false

/-- The output format tags `initializeResultData` knows. -/
def knownOutputFormats : List String :=
  ["empty", "csv", "mat", "plt"]

/-- Simulation data over the empty model with the given output format and
solver method, ten steps and the match-all filter. -/
def sampleData (outputFormat solverMethod : String) : DATA where
  modelData := emptyModel
  simulationInfo :=
    { numSteps := 10, outputFormat := outputFormat, variableFilter := ".*",
      solverMethod := solverMethod }

/-! ## Start-up, verbosity and error handling: state and control -/

/-- The `jmp_buf` objects a `longjmp` of the runtime can target: `globalJmpbuf`
(set in `_main_SimulationRuntime`), `simulationJmpbuf`, `nonlinearJmpbuf` and
`integratorJmpbuf` (set inside the solvers). -/
inductive JumpBuffer
  | globalJmpbuf
  | simulationJmpbuf
  | nonlinearJmpbuf
  | integratorJmpbuf
  deriving DecidableEq, Repr

/-- How a call of the start-up and error-handling functions ends: `returned v`
for `return v` (a `void` function returns 0 here), `longjmp buf val` for a
non-local jump, and `exited status` for the end of the process. -/
inductive Control
  | returned (retVal : Int)
  | longjmp (buf : JumpBuffer) (val : Int)
  | exited (status : Int)
  deriving DecidableEq, Repr

/-- An `Outcome` of `callSolver` as a `Control`: a `THROW` is the jump to
`globalJmpbuf`. -/
def Outcome.toControl : Outcome → Control
  | Outcome.returned retVal => Control.returned retVal
  | Outcome.thrown _ => Control.longjmp JumpBuffer.globalJmpbuf 1

/-- The command-line flags read by the embedded functions (enumeration of
`options.h`). -/
inductive Flag
  | FLAG_CLOCK
  | FLAG_CPU
  | FLAG_HELP
  | FLAG_IIF
  | FLAG_IIM
  | FLAG_IIT
  | FLAG_ILS
  | FLAG_INTERACTIVE
  | FLAG_IOM
  | FLAG_L
  | FLAG_LS
  | FLAG_LV
  | FLAG_MEASURETIMEPLOTFORMAT
  | FLAG_NLS
  | FLAG_NOEMIT
  | FLAG_OUTPUT
  | FLAG_PORT
  | FLAG_R
  | FLAG_S
  | FLAG_W
  deriving DecidableEq, Repr

/-- The log-stream enumeration and its tables, declared in `omc_error.h`,
outside the translated file, so they are a parameter: `LOG_MAX` entries, of
which `firstOMCErrorStream .. LOG_MAX-1` can be chosen with `-lv`, and the
enumerators the file names. -/
structure LogStreams where
  LOG_MAX : Nat
  firstOMCErrorStream : Nat
  LOG_STREAM_NAME : Nat → String
  LOG_STREAM_DESC : Nat → String
  LOG_STDOUT : Nat
  LOG_ASSERT : Nat
  LOG_DDASRT : Nat
  LOG_DSS : Nat
  LOG_DSS_JAC : Nat
  LOG_EVENTS : Nat
  LOG_EVENTS_V : Nat
  LOG_INIT : Nat
  LOG_NLS : Nat
  LOG_NLS_V : Nat
  LOG_NLS_JAC : Nat
  LOG_SOLVER : Nat
  LOG_SOTI : Nat
  LOG_STATS : Nat

/-- Source position attached to a message (`FILE_INFO`). -/
structure FILE_INFO where
  filename : String
  lineStart : Int
  colStart : Int
  lineEnd : Int
  colEnd : Int
  readonly : Int
  deriving DecidableEq, Repr

/-- The state the start-up and error-handling functions work on: the object
`*data`, the globals of `callSolver`, and the further file-level and library variables
they read or write (`useStream`, `showAllWarnings`,
`measure_time_flag`, the solver choices stored in `simulationInfo`, the port
flag, the termination variables, `currectJumpState`). `calls` lists the external
routines called, in order. -/
structure Runtime where
  data : DATA
  globals : Globals
  useStream : Nat → Int
  showAllWarnings : Int
  measure_time_flag : Int
  nlsMethod : Int
  lsMethod : Int
  sim_communication_port_open : Int
  terminationTerminate : Int
  TermMsg : Option String
  termMsgSize : Nat
  TermInfo : FILE_INFO
  currectJumpState : Int
  calls : List String

/-- Append one logging call to the trace of the globals. -/
def Runtime.log (s : Runtime) (e : Event) : Runtime :=
  { s with globals := s.globals.log e }

/-- Record the call of an external routine. -/
def Runtime.call (s : Runtime) (routine : String) : Runtime :=
  { s with calls := s.calls ++ [routine] }

/-- The macro `THROW` (see `THROW`) in a function that works on the whole
runtime state: the jump to `globalJmpbuf`. -/
def Runtime.THROW (msg : String) (s : Runtime) : Control × Runtime :=
  ((SimulationRuntime.THROW msg s.globals).1.toControl,
    { s with globals := (SimulationRuntime.THROW msg s.globals).2 })

/-- Modelled from the spec: the macro `EXIT` of `omc_error.h`. It ends the
process at once with the given exit code (0 for success, nonzero for a failed
run). -/
def EXIT (code : Int) (s : Runtime) : Control × Runtime :=
  (Control.exited code, s)

/-! ## Verbosity streams: `setGlobalVerboseLevel` -/

/-- The assignment `useStream[i] = 1`. -/
def setStream (useStream : Nat → Int) (i : Nat) : Nat → Int :=
  fun j => if j = i then 1 else useStream j

/-- The test `text.find(pat, 0) != string::npos`: `pat` occurs in `text`. -/
def findText (pat : List Char) : List Char → Bool
  | [] => pat.isPrefixOf []
  | c :: cs => pat.isPrefixOf (c :: cs) || findText pat cs

/-- The call `flagList.find(",", 0)`: position of the first comma, `none` for
`string::npos`. -/
def find_comma : List Char → Option Nat
  | [] => none
  | c :: cs => if c = ',' then some 0 else (find_comma cs).map (fun p => p + 1)

/-- Lines 173-174 of `setGlobalVerboseLevel`: enable the streams
`1 .. LOG_MAX-1`. -/
def enableAllStreams (st : LogStreams) (useStream : Nat → Int) : Nat → Int :=
  (List.range' 1 (st.LOG_MAX - 1)).foldl setStream useStream

/-- Lines 196-203 of `setGlobalVerboseLevel`: enable every selectable stream
whose name is `flag`; the first component is the value of `error` after the
loop (0 when a name matched). -/
def matchStreamNames (st : LogStreams) (flag : String) (useStream : Nat → Int) :
    Int × (Nat → Int) :=
  (List.range' st.firstOMCErrorStream (st.LOG_MAX - st.firstOMCErrorStream)).foldl
    (fun r i => if flag = st.LOG_STREAM_NAME i then (0, setStream r.2 i) else r)
    (1, useStream)

/-- Lines 207-212 of `setGlobalVerboseLevel`: list the selectable streams and
`THROW1("unrecognized option -lv %s", flags)`. -/
def reportStreamsAndThrow (st : LogStreams) (flags : String) (s : Runtime) :
    Control × Runtime :=
  let s := s.log (Event.warning "current options are:" [])
  let s := (List.range' st.firstOMCErrorStream (st.LOG_MAX - st.firstOMCErrorStream)).foldl
    (fun s i => s.log (Event.warning "%-18s [%s]"
      [st.LOG_STREAM_NAME i, st.LOG_STREAM_DESC i]))
    s
  Runtime.THROW ("unrecognized option -lv " ++ flags) s

/-- Lines 182-214 of `setGlobalVerboseLevel`, the `do ... while(pos != npos)`
loop over `flagList`. Each round shortens `flagList`; the first argument bounds
the number of rounds, and `none` says the bound was too small (a bound above the
length of `flagList` never is, see `scanFlagList_result`). -/
def scanFlagList (st : LogStreams) (flags : String) :
    Nat → List Char → Runtime → Option (Control × Runtime)
  | 0, _, _ => none
  | rounds + 1, flagList, s =>
    let pos := find_comma flagList
    let flag :=
      match pos with
      | some p => flagList.take p
      | none => flagList
    let rest :=
      match pos with
      | some p => flagList.drop (p + 1)
      | none => flagList
    let r := matchStreamNames st (String.mk flag) s.useStream
    let s := { s with useStream := r.2 }
    if r.1 ≠ 0 then
      some (reportStreamsAndThrow st flags s)
    else
      match pos with
      | some _ => scanFlagList st flags rounds rest s
      | none => some (Control.returned 0, s)

/-- Lines 217-243 of `setGlobalVerboseLevel`: the streams that are always on,
and the streams switched on by another one. -/
def applyStreamDefaults (st : LogStreams) (useStream : Nat → Int) : Nat → Int :=
  let u := setStream useStream st.LOG_STDOUT
  let u := setStream u st.LOG_ASSERT
  let u := if u st.LOG_INIT ≠ 0 then setStream u st.LOG_SOTI else u
  let u := if u st.LOG_SOLVER = 1 then setStream u st.LOG_STATS else u
  let u := if u st.LOG_NLS_V ≠ 0 then setStream u st.LOG_NLS else u
  let u := if u st.LOG_EVENTS_V ≠ 0 then setStream u st.LOG_EVENTS else u
  let u := if u st.LOG_NLS_JAC ≠ 0 then setStream u st.LOG_NLS else u
  let u := if u st.LOG_DSS_JAC ≠ 0 then setStream u st.LOG_DSS else u
  u

/-- Source: `setGlobalVerboseLevel`. The values of the command line are the
parameters `omc_flag` and `omc_flagValue`. -/
def setGlobalVerboseLevel (st : LogStreams) (omc_flag : Flag → Int)
    (omc_flagValue : Flag → Option String) (s : Runtime) : Option (Control × Runtime) :=
  let s := if omc_flag Flag.FLAG_W ≠ 0 then { s with showAllWarnings := 1 } else s
  match omc_flagValue Flag.FLAG_LV with
  | none =>
    -- default activated; no lv flag given
    some (Control.returned 0,
      { s with useStream := setStream (setStream s.useStream st.LOG_STDOUT) st.LOG_ASSERT })
  | some flags =>
    if findText "LOG_ALL".data flags.data then
      some (Control.returned 0,
        { s with useStream := applyStreamDefaults st (enableAllStreams st s.useStream) })
    else
      match scanFlagList st flags (flags.data.length + 1) flags.data s with
      | none => none
      | some r =>
        match r.1 with
        | Control.returned _ =>
          some (Control.returned 0,
            { r.2 with useStream := applyStreamDefaults st r.2.useStream })
        | _ => some r

/-- The comma-separated tokens of a text, in order; the text after the last
comma is a token too, also when it is empty. -/
def commaTokens : List Char → List (List Char)
  | [] => [[]]
  | c :: cs =>
    if c = ',' then
      [] :: commaTokens cs
    else
      match commaTokens cs with
      | [] => [[c]]
      | t :: ts => (c :: t) :: ts

/-- The comma-separated tokens of a `-lv` value. -/
def lvTokens (flags : String) : List String :=
  (commaTokens flags.data).map String.mk

/-- A token that is the name of no selectable stream
(`firstOMCErrorStream .. LOG_MAX-1`). -/
def unknownStreamName (st : LogStreams) (flag : String) : Prop :=
  ∀ i, st.firstOMCErrorStream ≤ i → i < st.LOG_MAX → st.LOG_STREAM_NAME i ≠ flag

/-- A stream table for evaluation: "LOG_STDOUT" (1) and "LOG_ASSERT" (2) are
always on, the streams from 3 on can be chosen. -/
def sampleStreams : LogStreams where
  LOG_MAX := 15
  firstOMCErrorStream := 3
  LOG_STREAM_NAME := fun i =>
    match i with
    | 1 => "LOG_STDOUT"
    | 2 => "LOG_ASSERT"
    | 3 => "LOG_DDASRT"
    | 4 => "LOG_DSS"
    | 5 => "LOG_DSS_JAC"
    | 6 => "LOG_EVENTS"
    | 7 => "LOG_EVENTS_V"
    | 8 => "LOG_INIT"
    | 9 => "LOG_NLS"
    | 10 => "LOG_NLS_V"
    | 11 => "LOG_NLS_JAC"
    | 12 => "LOG_SOLVER"
    | 13 => "LOG_SOTI"
    | 14 => "LOG_STATS"
    | _ => "LOG_UNKNOWN"
  LOG_STREAM_DESC := fun _ => ""
  LOG_STDOUT := 1
  LOG_ASSERT := 2
  LOG_DDASRT := 3
  LOG_DSS := 4
  LOG_DSS_JAC := 5
  LOG_EVENTS := 6
  LOG_EVENTS_V := 7
  LOG_INIT := 8
  LOG_NLS := 9
  LOG_NLS_V := 10
  LOG_NLS_JAC := 11
  LOG_SOLVER := 12
  LOG_SOTI := 13
  LOG_STATS := 14

/-- A command line without flags. -/
def noFlag : Flag → Int :=
  fun _ => 0

/-- A command line without flag values. -/
def noFlagValue : Flag → Option String :=
  fun _ => none

/-- A command line whose only flag is `-lv` with the given value. -/
def lvFlagValue (lv : String) : Flag → Option String :=
  fun f => if f = Flag.FLAG_LV then some lv else none

/-- The runtime state at program start over the given data: nothing enabled,
nothing called, no termination message. -/
def initialRuntime (data : DATA) : Runtime where
  data := data
  globals := initialGlobals
  useStream := fun _ => 0
  showAllWarnings := 0
  measure_time_flag := 0
  nlsMethod := 0
  lsMethod := 0
  sim_communication_port_open := 0
  terminationTerminate := 0
  TermMsg := none
  termMsgSize := 0
  TermInfo :=
    { filename := "", lineStart := 0, colStart := 0, lineEnd := 0, colEnd := 0, readonly := 0 }
  currectJumpState := 0
  calls := []

/-! ## Error handlers: `omc_assert_simulation`, `omc_terminate_simulation`,
`omc_throw_simulation` -/

/-- The case labels of the switch over `currectJumpState`; the enumeration is
declared in `omc_error.h`, outside the translated file, so its values are a
parameter. -/
structure ErrorStages where
  ERROR_SIMULATION : Int
  ERROR_NONLINEARSOLVER : Int
  ERROR_INTEGRATOR : Int
  ERROR_EVENTSEARCH : Int
  ERROR_OPTIMIZE : Int

/-- The five case labels as a list; a C switch has no two equal labels. -/
def ErrorStages.caseLabels (es : ErrorStages) : List Int :=
  [es.ERROR_SIMULATION, es.ERROR_NONLINEARSOLVER, es.ERROR_INTEGRATOR, es.ERROR_EVENTSEARCH,
    es.ERROR_OPTIMIZE]

/-- The first `n` characters of a text: what `vsnprintf` leaves in a buffer with
room for `n` characters and the terminating zero. -/
def truncateText (text : String) (n : Nat) : String :=
  String.mk (text.data.take n)

/-- The size of the buffer that line 137 of `setTermMsg` writes to: the size
chosen on line 134 when `TermMsg` is still `NULL`, else the current
`termMsgSize`. -/
def termMsgCapacity (msg : String) (s : Runtime) : Nat :=
  if s.TermMsg = none then max (msg.length * 2 + 1) 2048 else s.termMsgSize

/-- Source: `setTermMsg`. `vformat msg ap` is the text that the `printf` family
produces from the format `msg` and the arguments `ap`; `vsnprintf` stores at
most `termMsgSize - 1` of its characters and returns its full length. The second
`vsnprintf` (line 143) gets the same `va_list` object after line 137 has read
from it; `apUsed` is the argument list it finds there. A freshly allocated
buffer is shown as the empty text. -/
def setTermMsg (vformat : String → List String → String) (msg : String)
    (ap apUsed : List String) (s : Runtime) : Runtime :=
  let s :=
    if s.TermMsg = none then
      { s with termMsgSize := max (msg.length * 2 + 1) 2048, TermMsg := some "" }
    else
      s
  let i := (vformat msg ap).length
  let s :=
    if s.termMsgSize = 0 then
      s
    else
      { s with TermMsg := some (truncateText (vformat msg ap) (s.termMsgSize - 1)) }
  if i ≥ s.termMsgSize then
    { s with
      termMsgSize := 2 * i + 1
      TermMsg := some (truncateText (vformat msg apUsed) (2 * i + 1 - 1)) }
  else
    s

/-- The three writes to `stderr` that print an assertion message. -/
def printAssertError (text : String) (s : Runtime) : Runtime :=
  ((s.log (Event.cerr "Error: ")).log (Event.cerr text)).log (Event.cerr "\n")

/-- Source: `omc_assert_simulation`. The switch over `currectJumpState` takes the
first label equal to it. -/
def omc_assert_simulation (es : ErrorStages) (st : LogStreams)
    (vformat : String → List String → String) (msg : String) (ap : List String)
    (s : Runtime) : Control × Runtime :=
  if s.currectJumpState = es.ERROR_SIMULATION then
    (Control.longjmp JumpBuffer.simulationJmpbuf 1, printAssertError (vformat msg ap) s)
  else if s.currectJumpState = es.ERROR_NONLINEARSOLVER then
    (Control.longjmp JumpBuffer.nonlinearJmpbuf 1,
      if s.useStream st.LOG_NLS ≠ 0 then printAssertError (vformat msg ap) s else s)
  else if s.currectJumpState = es.ERROR_INTEGRATOR then
    (Control.longjmp JumpBuffer.integratorJmpbuf 1,
      if s.useStream st.LOG_DDASRT ≠ 0 then printAssertError (vformat msg ap) s else s)
  else if s.currectJumpState = es.ERROR_EVENTSEARCH
      ∨ s.currectJumpState = es.ERROR_OPTIMIZE then
    -- Ignore asserts for event search
    (Control.returned 0, s)
  else
    Runtime.THROW "Unhandled Assertion-Error" s

/-- Source: `omc_terminate_simulation`. -/
def omc_terminate_simulation (vformat : String → List String → String) (info : FILE_INFO)
    (msg : String) (ap apUsed : List String) (s : Runtime) : Control × Runtime :=
  let s := { s with terminationTerminate := 1 }
  let s := setTermMsg vformat msg ap apUsed s
  (Control.returned 0, { s with TermInfo := info })

/-- Source: `omc_throw_simulation`. The argument list handed to `setTermMsg` is
an uninitialised `va_list`, here the parameters `ap` and `apUsed`;
`omc_dummyFileInfo` is a constant of `omc_error.h`. -/
def omc_throw_simulation (vformat : String → List String → String)
    (omc_dummyFileInfo : FILE_INFO) (ap apUsed : List String) (s : Runtime) :
    Control × Runtime :=
  let s := setTermMsg vformat "Assertion triggered by external C function" ap apUsed s
  let s := { s with TermInfo := omc_dummyFileInfo }
  (Control.longjmp JumpBuffer.globalJmpbuf 1, s)

/-! ## Start-up and the top level: `initRuntimeAndSimulation`,
`_main_SimulationRuntime` -/

/-- The nonlinear-solver enumeration and its tables (`nonlinearSystem.h`), a
parameter. -/
structure NonlinearSolvers where
  NLS_MAX : Nat
  NLS_NONE : Nat
  NLS_HYBRID : Nat
  NLS_NAME : Nat → String
  NLS_DESC : Nat → String

/-- The linear-solver enumerators (`linearSystem.h`), a parameter. -/
structure LinearSolvers where
  LS_NONE : Int
  LS_LAPACK : Int
  LS_LIS : Int

/-- What the embedded functions take from outside the translated file: the
parsed command line (`omc_flag`, `omc_flagValue`, the results of `helpFlagSet`
and `checkCommandLineArguments`), the enumerations and tables of the headers,
and the results of the external routines. `numSteps` is the value of the
floating-point expression `(stopTime - startTime)/stepSize` cast to an integer,
`resultFileStem` the field `modelData.modelFilePrefix`. -/
structure Env where
  omc_flag : Flag → Int
  omc_flagValue : Flag → Option String
  helpFlagSet : Int
  checkCommandLineArguments : Int
  streams : LogStreams
  solvers : SolverMethods
  nonlinear : NonlinearSolvers
  linear : LinearSolvers
  regex : RegexLib
  solver_main : Nat → Globals → Outcome × Globals
  initializeDataStruc : DATA → DATA
  read_input_xml : DATA → DATA
  numSteps : DATA → Int
  rt_set_clock : String → Int
  linearize : DATA → Int
  printModelInfo : DATA → Int
  socket_create : Bool
  socket_connect : Bool
  resultFileStem : String

/-- Run `k` with the status of a step that returned; a step that jumped or ended
the process ends the whole sequence. -/
def andThen (r : Control × Runtime) (k : Int → Runtime → Option (Control × Runtime)) :
    Option (Control × Runtime) :=
  match r.1 with
  | Control.returned v => k v r.2
  | c => some (c, r.2)

/-- Source: `getNonlinearSolverMethod`. The status of a normal return is the
chosen method. -/
def getNonlinearSolverMethod (nl : NonlinearSolvers) (omc_flagValue : Flag → Option String)
    (s : Runtime) : Control × Runtime :=
  match omc_flagValue Flag.FLAG_NLS with
  | none => (Control.returned nl.NLS_HYBRID, s)
  | some method =>
    match (List.range' 1 (nl.NLS_MAX - 1)).find? (fun i => method = nl.NLS_NAME i) with
    | some i => (Control.returned i, s)
    | none =>
      let s := s.log (Event.warning "unrecognized option -nls=%s" [method])
      let s := s.log (Event.warning "current options are:" [])
      let s := (List.range' 1 (nl.NLS_MAX - 1)).foldl
        (fun s i => s.log (Event.warning "%-18s [%s]" [nl.NLS_NAME i, nl.NLS_DESC i]))
        s
      Runtime.THROW "see last warning" s

/-- Source: `getlinearSolverMethod`. -/
def getlinearSolverMethod (ls : LinearSolvers) (omc_flagValue : Flag → Option String)
    (s : Runtime) : Control × Runtime :=
  match omc_flagValue Flag.FLAG_LS with
  | none => (Control.returned ls.LS_LAPACK, s)
  | some method =>
    if method = "lapack" then
      (Control.returned ls.LS_LAPACK, s)
    else if method = "lis" then
      (Control.returned ls.LS_LIS, s)
    else
      let s := s.log (Event.warning "unrecognized option -ls %s" [method])
      let s := s.log (Event.warning "current options are:" [])
      let s := s.log (Event.warning "%-18s [%s]" ["lapack", "default method"])
      let s := s.log (Event.warning "%-18s [%s]" ["lis", "Lis"])
      Runtime.THROW "see last warning" s

/-- The compound assignment `flag &= ok` for the `bool` result `ok` of a socket
operation: the lowest bit of `flag` if `ok`, else 0. -/
def andResult (flag : Int) (ok : Bool) : Int :=
  if ok then flag % 2 else 0

/-- Source: `communicateStatus`; `percent` is `(int)(completionPercent*10000)`. -/
def communicateStatus (phase : String) (percent : Int) (s : Runtime) : Runtime :=
  if s.sim_communication_port_open ≠ 0 then
    s.call ("sim_communication_port.send " ++ toString percent ++ " " ++ phase)
  else
    s

/-- Lines 833-865 of `initRuntimeAndSimulation`: the test for a model without variables,
then the no-emit flag, the interactive flag and the port. -/
def initRuntimeAndSimulation_finish (env : Env) (s : Runtime) : Control × Runtime :=
  if s.data.modelData.nVariablesReal = 0 ∧ s.data.modelData.nVariablesInteger ≠ 0
      ∧ s.data.modelData.nVariablesBoolean ≠ 0 then
    (Control.returned 1, s.log (Event.cerr "No variables in the model."))
  else
    let s := { s with globals := { s.globals with sim_noemit := env.omc_flag Flag.FLAG_NOEMIT } }
    let s := { s with
      globals := { s.globals with interactiveSimulation := env.omc_flag Flag.FLAG_INTERACTIVE } }
    let s :=
      if s.globals.interactiveSimulation ≠ 0 ∧ env.omc_flag Flag.FLAG_PORT ≠ 0 then
        (s.call "cout userPort").call "setPortOfControlServer"
      else if s.globals.interactiveSimulation = 0 ∧ env.omc_flag Flag.FLAG_PORT ≠ 0 then
        let s := { s with sim_communication_port_open := 1 }
        let s := (s.call "sim_communication_port.create")
        let s := { s with
          sim_communication_port_open := andResult s.sim_communication_port_open env.socket_create }
        let s := (s.call "sim_communication_port.connect")
        let s := { s with
          sim_communication_port_open :=
            andResult s.sim_communication_port_open env.socket_connect }
        communicateStatus "Starting" 0 s
      else
        s
    (Control.returned 0, s)

/-- Lines 807-830 of `initRuntimeAndSimulation`: verbosity, data structure,
solver choices, input file, output filter, and the allocation of the mixed,
linear and nonlinear system solvers; then the rest of the function. (The global
`stepSize`, a floating-point value, is not part of the state.) -/
def initRuntimeAndSimulation_load (env : Env) (s : Runtime) : Option (Control × Runtime) :=
  match setGlobalVerboseLevel env.streams env.omc_flag env.omc_flagValue s with
  | none => none
  | some r =>
    andThen r fun _ s =>
      let s := { s with data := env.initializeDataStruc s.data }.call "initializeDataStruc"
      andThen (getNonlinearSolverMethod env.nonlinear env.omc_flagValue s) fun nls s =>
        let s := { s with nlsMethod := nls }
        andThen (getlinearSolverMethod env.linear env.omc_flagValue s) fun ls s =>
          let s := { s with lsMethod := ls }
          let s := s.call "function_initMemoryState"
          let s := { s with data := env.read_input_xml s.data }.call "read_input_xml"
          match initializeOutputFilter env.regex s.data.modelData
              s.data.simulationInfo.variableFilter with
          | none => none
          | some modelData =>
            let s := { s with data := { s.data with modelData := modelData } }
            let s := s.call "allocatemixedSystem"
            let s := s.call "allocatelinearSystem"
            let s := s.call "allocateNonlinearSystem"
            some (initRuntimeAndSimulation_finish env s)

/-- Source: `initRuntimeAndSimulation`. Both help branches (lines 738-805) print
their listing, shown as one trace entry, and end the process with `EXIT(0)`. A
flag `-help` without a value has no defined result: line 759 builds a
`std::string` from a null pointer. -/
def initRuntimeAndSimulation (env : Env) (argv0 : String) (s : Runtime) :
    Option (Control × Runtime) :=
  let s := s.call "initDumpSystem"
  if env.helpFlagSet ≠ 0 ∨ env.checkCommandLineArguments ≠ 0 then
    some (EXIT 0 (s.log (Event.info "usage: %s" [argv0])))
  else if env.omc_flag Flag.FLAG_HELP ≠ 0 then
    match env.omc_flagValue Flag.FLAG_HELP with
    | none => none
    | some option => some (EXIT 0 (s.log (Event.info "help on flag %s" [option])))
  else
    initRuntimeAndSimulation_load env s

/-- Source: `startInteractiveSimulation`; the control thread is external. -/
def startInteractiveSimulation (s : Runtime) : Control × Runtime :=
  let s := s.call "initServiceInterfaceData"
  let s := s.call "createControlThread"
  let s := s.call "threadSimulationControl.Join"
  let s := s.call "cout simulation finished!"
  (Control.returned (-1), s)

/-- Lines 487-513 of `startNonInteractiveSimulation`: choose and set the clock. -/
def setupClock (env : Env) (s : Runtime) : Runtime :=
  let clockName := env.omc_flagValue Flag.FLAG_CLOCK
  let clock :=
    match clockName with
    | none => "OMC_CLOCK_REALTIME"
    | some name =>
      if name = "CPU" then "OMC_CLOCK_CPUTIME"
      else if name = "RT" then "OMC_CLOCK_REALTIME"
      else if name = "CYC" then "OMC_CPU_CYCLES"
      else "OMC_CLOCK_REALTIME"
  let s :=
    match clockName with
    | none => s
    | some name =>
      if name = "CPU" ∨ name = "RT" ∨ name = "CYC" then s
      else s.log (Event.warning
        "[unknown clock-type] got %s, expected CPU|RT|CYC. Defaulting to RT." [name])
  let s := s.call "rt_set_clock"
  if env.rt_set_clock clock ≠ 0 then
    s.log (Event.warning
      "Chosen clock-type: %s not available for the current platform. Defaulting to real-time."
      [clockName.getD ""])
  else
    s

/-- Lines 598-624 of `startNonInteractiveSimulation`: what follows the call of
`callSolver`, whose status is `retVal`; `measureSimTime` is the local flag set
at the start. -/
def startNonInteractiveSimulation_finish (env : Env) (measureSimTime : Int) (retVal : Int)
    (s : Runtime) : Control × Runtime :=
  let r : Int × Runtime :=
    if 0 = retVal ∧ env.omc_flag Flag.FLAG_L ≠ 0 then
      let s := s.call "rt_tick"
      let s := s.call "linearize"
      let s := s.call "rt_accumulate"
      (env.linearize s.data, s.log (Event.info "Linear model is created!" []))
    else
      (retVal, s)
  let retVal := r.1
  let s := r.2
  let s := if measureSimTime ≠ 0 then { s with measure_time_flag := 0 } else s
  if 0 = retVal ∧ s.measure_time_flag ≠ 0 then
    let s := s.call "rt_accumulate"
    let s := s.call "printModelInfo"
    (Control.returned (if env.printModelInfo s.data ≠ 0 ∧ retVal ≠ 0 then 1 else 0), s)
  else
    (Control.returned retVal, s)

/-- Source: `startNonInteractiveSimulation`. The initialisation options read
from the command line (`-iim`, `-iom`, `-iif`, `-iit`, `-ils`, `-output`) are
only handed on to `solver_main` and belong to that parameter; the stop time of a
linearisation is a floating-point field outside the state. A flag `-s` without
a value has no defined result. -/
def startNonInteractiveSimulation (env : Env) (s : Runtime) : Option (Control × Runtime) :=
  let activate : Bool := decide (s.useStream env.streams.LOG_STATS ≠ 0
    ∨ (env.omc_flag Flag.FLAG_CPU ≠ 0 ∧ s.measure_time_flag = 0))
  let measureSimTime : Int := if activate then 1 else 0
  let s := if activate then { s with measure_time_flag := 1 } else s
  let s := { s with
    data := { s.data with
      simulationInfo := { s.data.simulationInfo with numSteps := env.numSteps s.data } } }
  let s := setupClock env s
  let s :=
    if s.measure_time_flag ≠ 0 then
      ((((((s.call "modelInfoXmlInit").call "rt_init").call "rt_tick").call "rt_tick").call
        "rt_clear").call "rt_clear").call "rt_clear"
    else
      s
  let s :=
    if env.omc_flag Flag.FLAG_L ≠ 0 then
      s.log (Event.info "Linearization will performed at point of time: %f"
        [(env.omc_flagValue Flag.FLAG_L).getD "startTime"])
    else
      s
  let overwritten : Option Runtime :=
    if env.omc_flag Flag.FLAG_S ≠ 0 then
      match env.omc_flagValue Flag.FLAG_S with
      | none => none
      | some method =>
        some ({ s with
          data := { s.data with
            simulationInfo := { s.data.simulationInfo with solverMethod := method } } }.log
          (Event.info "overwrite solver method: %s [from command line]" [method]))
    else
      some s
  match overwritten with
  | none => none
  | some s =>
    let result_file_cstr :=
      match env.omc_flagValue Flag.FLAG_R with
      | none => env.resultFileStem ++ "_res." ++ s.data.simulationInfo.outputFormat
      | some result_file => result_file
    let cpuTime := env.omc_flag Flag.FLAG_CPU
    let r := callSolver env.solvers env.solver_main s.data result_file_cstr cpuTime s.globals
    andThen (r.1.toControl, { s with globals := r.2 }) fun retVal s =>
      some (startNonInteractiveSimulation_finish env measureSimTime retVal s)

/-- Lines 945-952 of `_main_SimulationRuntime`: close the port if it is open and
`EXIT(retVal)`. -/
def _main_SimulationRuntime_exit (retVal : Int) (s : Runtime) : Control × Runtime :=
  let s :=
    if s.sim_communication_port_open ≠ 0 then s.call "sim_communication_port.close" else s
  EXIT retVal s

/-- Lines 915-930 of `_main_SimulationRuntime`: register the status handler and
run the interactive or the non-interactive simulation. -/
def _main_SimulationRuntime_simulate (env : Env) (s : Runtime) : Option (Control × Runtime) :=
  let s := s.call "signal SIGUSR1"
  if s.globals.interactiveSimulation ≠ 0 then
    some (startInteractiveSimulation (s.call "cout startInteractiveSimulation: "))
  else
    startNonInteractiveSimulation env (s.call "cout startNonInteractiveSimulation: ")

/-- Lines 932-938 of `_main_SimulationRuntime`: the cleanup after the simulation
returned. -/
def _main_SimulationRuntime_cleanup (s : Runtime) : Runtime :=
  let s := s.call "freemixedSystem"
  let s := s.call "freelinearSystem"
  let s := s.call "freeNonlinearSystem"
  let s := s.call "callExternalObjectDestructors"
  let s := s.call "deInitializeDataStruc"
  s.call "fflush"

/-- Lines 915-938 of `_main_SimulationRuntime`: the simulation and, once it
returned with a status (the value of `retVal`), the cleanup. -/
def _main_SimulationRuntime_run (env : Env) (s : Runtime) : Option (Control × Runtime) :=
  match _main_SimulationRuntime_simulate env s with
  | none => none
  | some r =>
    andThen r fun retVal s =>
      some (Control.returned retVal, _main_SimulationRuntime_cleanup s)

/-- Source: `_main_SimulationRuntime`. The branch `!setjmp(globalJmpbuf)` is the
body; a jump to `globalJmpbuf` out of it lands in the `else` branch ("THROW was
executed"), with `retVal` still at its initial value -1, since `retVal` is only
assigned when the simulation returned. -/
def _main_SimulationRuntime (env : Env) (argv0 : String) (s : Runtime) :
    Option (Control × Runtime) :=
  match initRuntimeAndSimulation env argv0 s with
  | none => none
  | some r =>
    match r.1 with
    | Control.returned failed =>
      if failed ≠ 0 then
        -- initRuntimeAndSimulation returns 1 if an error occurs
        some (Control.returned 1, r.2)
      else
        match _main_SimulationRuntime_run env r.2 with
        | none => none
        | some q =>
          match q.1 with
          | Control.returned retVal => some (_main_SimulationRuntime_exit retVal q.2)
          | Control.longjmp JumpBuffer.globalJmpbuf _ =>
            some (_main_SimulationRuntime_exit (-1) q.2)
          | c => some (c, q.2)
    | Control.longjmp JumpBuffer.globalJmpbuf _ => some (_main_SimulationRuntime_exit (-1) r.2)
    | c => some (c, r.2)

/-- Every entry of `useStream` is 0 or 1, as at program start (all 0) and after
any assignment of this file (all of them store 1). -/
def flagValued (useStream : Nat → Int) : Prop :=
  ∀ i, useStream i = 0 ∨ useStream i = 1

/-- The error stages numbered in the order of the switch, from 1. -/
def sampleStages : ErrorStages where
  ERROR_SIMULATION := 1
  ERROR_NONLINEARSOLVER := 2
  ERROR_INTEGRATOR := 3
  ERROR_EVENTSEARCH := 4
  ERROR_OPTIMIZE := 5

/-- A formatter for evaluation that returns the format text itself. -/
def plainFormat : String → List String → String :=
  fun msg _ => msg

/-- A file position for evaluation. -/
def sampleFileInfo : FILE_INFO where
  filename := "model.mo"
  lineStart := 1
  colStart := 1
  lineEnd := 1
  colEnd := 1
  readonly := 0

/-- An environment for evaluation over a given command line: the sample tables,
a `solver_main` that returns 0 at once, external routines that leave the data
as they are and succeed. -/
def sampleEnv (omc_flag : Flag → Int) (omc_flagValue : Flag → Option String) : Env where
  omc_flag := omc_flag
  omc_flagValue := omc_flagValue
  helpFlagSet := 0
  checkCommandLineArguments := 0
  streams := sampleStreams
  solvers := sampleMethods
  nonlinear :=
    { NLS_MAX := 3, NLS_NONE := 0, NLS_HYBRID := 1,
      NLS_NAME := fun i => if i = 1 then "hybrid" else if i = 2 then "kinsol" else "",
      NLS_DESC := fun _ => "" }
  linear := { LS_NONE := 0, LS_LAPACK := 1, LS_LIS := 2 }
  regex := literalRegex
  solver_main := constSolver 0
  initializeDataStruc := fun data => data
  read_input_xml := fun data => data
  numSteps := fun data => data.simulationInfo.numSteps
  rt_set_clock := fun _ => 0
  linearize := fun _ => 0
  printModelInfo := fun _ => 0
  socket_create := true
  socket_connect := true
  resultFileStem := "model"

/-- The command line `-s nosuch`: the flag is set. -/
def solverFlag : Flag → Int :=
  fun f => if f = Flag.FLAG_S then 1 else 0

/-- The command line `-s nosuch`: the value of the flag. -/
def solverFlagValue : Flag → Option String :=
  fun f => if f = Flag.FLAG_S then some "nosuch" else none

/-- A model with three integer and two boolean variables and no real one. -/
def integerBooleanModel : MODEL_DATA :=
  { emptyModel with
    integerVarsData := [⟨"i1", false⟩, ⟨"i2", false⟩, ⟨"i3", false⟩]
    booleanVarsData := [⟨"b1", false⟩, ⟨"b2", false⟩]
    nVariablesInteger := 3
    nVariablesBoolean := 2 }

/-- The external routines called for the cleanup at the end of a run. -/
def cleanupCalls : List String :=
  ["freemixedSystem", "freelinearSystem", "freeNonlinearSystem", "deInitializeDataStruc"]

/-! ## Solver method resolution: lemmas -/

theorem foldl_select_of_no_match (name : Nat → String) (m : String) :
    ∀ (l : List Nat) (a : Nat), (∀ i ∈ l, name i ≠ m) →
      l.foldl (fun solverID i => if name i = m then i else solverID) a = a := by
  intro l
  induction l with
  | nil => intro a _; rfl
  | cons x xs ih =>
    intro a h
    have hx : name x ≠ m := h x (List.mem_cons_self x xs)
    simp only [List.foldl_cons, if_neg hx]
    exact ih a (fun i hi => h i (List.mem_cons_of_mem x hi))

theorem foldl_select_of_match (name : Nat → String) (m : String) :
    ∀ (l : List Nat) (a : Nat), (∃ i ∈ l, name i = m) →
      l.foldl (fun solverID i => if name i = m then i else solverID) a ∈ l
        ∧ name (l.foldl (fun solverID i => if name i = m then i else solverID) a) = m := by
  intro l
  induction l with
  | nil => intro a h; obtain ⟨i, hi, _⟩ := h; cases hi
  | cons x xs ih =>
    intro a h
    simp only [List.foldl_cons]
    by_cases hxs : ∃ i ∈ xs, name i = m
    · obtain ⟨h1, h2⟩ := ih (if name x = m then x else a) hxs
      exact ⟨List.mem_cons_of_mem x h1, h2⟩
    · have hno : ∀ i ∈ xs, name i ≠ m := fun i hi hm => hxs ⟨i, hi, hm⟩
      have hx : name x = m := by
        obtain ⟨i, hi, him⟩ := h
        rcases List.mem_cons.mp hi with rfl | hi
        · exact him
        · exact absurd him (hno i hi)
      rw [foldl_select_of_no_match name m xs _ hno, if_pos hx]
      exact ⟨List.mem_cons_self x xs, hx⟩

theorem mem_registeredNames (tbl : SolverMethods) (m : String) :
    m ∈ registeredNames tbl ↔ ∃ i, (1 ≤ i ∧ i < tbl.S_MAX) ∧ tbl.SOLVER_METHOD_NAME i = m := by
  unfold registeredNames
  simp only [List.mem_map, List.mem_range'_1]
  constructor
  · rintro ⟨i, ⟨h1, h2⟩, h3⟩
    exact ⟨i, ⟨h1, by omega⟩, h3⟩
  · rintro ⟨i, ⟨h1, h2⟩, h3⟩
    exact ⟨i, ⟨h1, by omega⟩, h3⟩

theorem resolveSolverID_of_unregistered (tbl : SolverMethods) (m : String)
    (hne : m ≠ "") (hun : m ∉ registeredNames tbl) :
    resolveSolverID tbl m = S_UNKNOWN := by
  unfold resolveSolverID
  rw [if_neg (fun h => hne h.symm)]
  apply foldl_select_of_no_match
  intro i hi hm
  exact hun (List.mem_map.mpr ⟨i, hi, hm⟩)

theorem reportSolverMethods_trace (tbl : SolverMethods) (g : Globals) :
    reportSolverMethods tbl g =
      { g with
        trace := g.trace ++ (List.range' 1 (tbl.S_MAX - 1)).map
          (fun i => Event.warning "| %-18s [%s]"
            [tbl.SOLVER_METHOD_NAME i, tbl.SOLVER_METHOD_DESC i]) } := by
  unfold reportSolverMethods
  generalize List.range' 1 (tbl.S_MAX - 1) = l
  induction l generalizing g with
  | nil => simp
  | cons x xs ih =>
    rw [List.foldl_cons, ih]
    simp [Globals.log]

/-! ## Solver method resolution: the claims -/

/-- C1: for every table of registered integrator names (pairwise distinct; an
integrator name is a non-empty string, the empty string being the absence of a
name) and every method string equal to one of them, the resolved `solverID` is
not `S_UNKNOWN`, lies in `1 .. S_MAX-1`, and is the one index whose registered
name equals the method string. -/
theorem resolveSolverID_registered (tbl : SolverMethods) (method : String)
    (hnames : "" ∉ registeredNames tbl) (hnodup : (registeredNames tbl).Nodup)
    (hreg : method ∈ registeredNames tbl) :
    resolveSolverID tbl method ≠ S_UNKNOWN
      ∧ 1 ≤ resolveSolverID tbl method
      ∧ resolveSolverID tbl method < tbl.S_MAX
      ∧ tbl.SOLVER_METHOD_NAME (resolveSolverID tbl method) = method
      ∧ ∀ j, 1 ≤ j → j < tbl.S_MAX → tbl.SOLVER_METHOD_NAME j = method →
          j = resolveSolverID tbl method := by
  have hne : method ≠ "" := fun h => hnames (h ▸ hreg)
  have hex : ∃ i ∈ List.range' 1 (tbl.S_MAX - 1), tbl.SOLVER_METHOD_NAME i = method := by
    unfold registeredNames at hreg
    obtain ⟨i, hi, hm⟩ := List.mem_map.mp hreg
    exact ⟨i, hi, hm⟩
  have hres : resolveSolverID tbl method =
      (List.range' 1 (tbl.S_MAX - 1)).foldl
        (fun solverID i => if tbl.SOLVER_METHOD_NAME i = method then i else solverID)
        S_UNKNOWN := by
    unfold resolveSolverID
    rw [if_neg (fun h => hne h.symm)]
  obtain ⟨hmem, hname⟩ :=
    foldl_select_of_match tbl.SOLVER_METHOD_NAME method _ S_UNKNOWN hex
  rw [← hres] at hmem hname
  have hrange := List.mem_range'_1.mp hmem
  refine ⟨?_, hrange.1, by omega, hname, ?_⟩
  · unfold S_UNKNOWN
    omega
  · intro j hj1 hj2 hjm
    have hjmem : j ∈ List.range' 1 (tbl.S_MAX - 1) :=
      List.mem_range'_1.mpr ⟨hj1, by omega⟩
    exact List.inj_on_of_nodup_map hnodup hjmem hmem (hjm.trans hname.symm)

/-- C1 at the sample table: "euler" resolves to entry 1. -/
theorem resolveSolverID_registered_witness :
    "" ∉ registeredNames sampleMethods ∧ (registeredNames sampleMethods).Nodup
      ∧ "euler" ∈ registeredNames sampleMethods
      ∧ resolveSolverID sampleMethods "euler" ≠ S_UNKNOWN
      ∧ sampleMethods.SOLVER_METHOD_NAME (resolveSolverID sampleMethods "euler") = "euler" :=
  have h := resolveSolverID_registered sampleMethods "euler" (by decide) (by decide) (by decide)
  ⟨by decide, by decide, by decide, h.1, h.2.2.2.1⟩

/-- C2, as stated, fails at the empty method string: "" is not a registered name
of `sampleMethods`, yet resolution does not fail; `solver_main` runs with the default
integrator (entry 3) and `callSolver` returns its status. -/
theorem callSolver_empty_method_counterexample :
    "" ∉ registeredNames sampleMethods
      ∧ (callSolver_resolveAndRun sampleMethods (constSolver 0) (sampleData "csv" "")
          initialGlobals).1 = Outcome.returned 0
      ∧ Event.solver_main 3 ∈
          (callSolver_resolveAndRun sampleMethods (constSolver 0) (sampleData "csv" "")
            initialGlobals).2.trace := by
  decide

/-- C2 (amended): for every non-empty method string that is not one of the
registered integrator names, resolution yields `S_UNKNOWN` and `callSolver` ends
in the `THROW` of the unrecognized-solver branch; what it did before is to warn
about the option and to report exactly the entries `1 .. S_MAX-1` of the name
table, each with its description, in table order. `solver_main` is not called:
nothing else is traced, and the result does not depend on it. -/
theorem callSolver_unregistered_throws (tbl : SolverMethods)
    (solver_main : Nat → Globals → Outcome × Globals) (simData : DATA) (g : Globals)
    (hne : simData.simulationInfo.solverMethod ≠ "")
    (hun : simData.simulationInfo.solverMethod ∉ registeredNames tbl) :
    resolveSolverID tbl simData.simulationInfo.solverMethod = S_UNKNOWN
      ∧ callSolver_resolveAndRun tbl solver_main simData g =
          (Outcome.thrown "see last warning",
            { g with
              trace := g.trace
                ++ [Event.warning "unrecognized option -s %s"
                      [simData.simulationInfo.solverMethod],
                    Event.warning "current options are:" []]
                ++ (List.range' 1 (tbl.S_MAX - 1)).map
                    (fun i => Event.warning "| %-18s [%s]"
                      [tbl.SOLVER_METHOD_NAME i, tbl.SOLVER_METHOD_DESC i]) }) := by
  have hres := resolveSolverID_of_unregistered tbl _ hne hun
  refine ⟨hres, ?_⟩
  unfold callSolver_resolveAndRun
  simp only [hres, if_true]
  unfold callSolver_unrecognized callSolver_finish THROW
  simp [reportSolverMethods_trace, Globals.log]

/-- C2 (amended) at the sample table: the method "nosuch" is not registered and
`callSolver` ends in the `THROW`. -/
theorem callSolver_unregistered_throws_witness :
    (sampleData "csv" "nosuch").simulationInfo.solverMethod ≠ ""
      ∧ (callSolver_resolveAndRun sampleMethods (constSolver 0) (sampleData "csv" "nosuch")
          initialGlobals).1 = Outcome.thrown "see last warning" :=
  have h := callSolver_unregistered_throws sampleMethods (constSolver 0)
    (sampleData "csv" "nosuch") initialGlobals (by decide) (by decide)
  ⟨by decide, by rw [h.2]⟩

/-- C3: when the configured solver method is the empty string, the resolved
identifier is the default integrator `S_DASSL`, whatever the name table holds,
and `callSolver` takes the branch of a recognized solver (it runs `solver_main`
with `S_DASSL`), not the unrecognized-solver branch. -/
theorem callSolver_empty_method_default (tbl : SolverMethods)
    (solver_main : Nat → Globals → Outcome × Globals) (simData : DATA) (g : Globals)
    (hm : simData.simulationInfo.solverMethod = "")
    (hD : tbl.S_DASSL ≠ S_UNKNOWN) :
    resolveSolverID tbl simData.simulationInfo.solverMethod = tbl.S_DASSL
      ∧ callSolver_resolveAndRun tbl solver_main simData g =
          callSolver_finish (callSolver_recognized tbl solver_main tbl.S_DASSL g) := by
  have hres : resolveSolverID tbl simData.simulationInfo.solverMethod = tbl.S_DASSL := by
    unfold resolveSolverID
    rw [if_pos hm.symm]
  refine ⟨hres, ?_⟩
  unfold callSolver_resolveAndRun
  simp only [hres]
  rw [if_neg (fun h => hD h.symm)]

/-- C3 at the sample table: the empty method resolves to entry 3, "dassl". -/
theorem callSolver_empty_method_default_witness :
    (sampleData "csv" "").simulationInfo.solverMethod = ""
      ∧ sampleMethods.S_DASSL ≠ S_UNKNOWN
      ∧ resolveSolverID sampleMethods (sampleData "csv" "").simulationInfo.solverMethod = 3 :=
  ⟨rfl, by decide,
    (callSolver_empty_method_default sampleMethods (constSolver 0) (sampleData "csv" "")
      initialGlobals rfl (by decide)).1⟩

/-! ## Output filter: lemmas -/

theorem list_set_of_getElem? {α : Type} (l : List α) (i : Nat) (x : α)
    (h : l[i]? = some x) : l.set i x = l := by
  apply List.ext_getElem?
  intro j
  rw [List.getElem?_set]
  by_cases hij : i = j
  · subst hij
    obtain ⟨hlt, _⟩ := List.getElem?_eq_some.mp h
    simp [hlt, h]
  · simp [hij]

theorem setFilterOutput_of_marked (a : List STATIC_VAR_DATA) (i : Nat) (b : Bool)
    (v : STATIC_VAR_DATA) (h : a[i]? = some v) (hb : v.filterOutput = b) :
    setFilterOutput a i b = some a := by
  unfold setFilterOutput
  rw [h]
  have hv : ({ v with filterOutput := b } : STATIC_VAR_DATA) = v := by
    cases v
    simp_all
  simp only [hv]
  rw [list_set_of_getElem? a i v h]

theorem setFilterOutput_some (a a' : List STATIC_VAR_DATA) (i : Nat) (b : Bool)
    (h : setFilterOutput a i b = some a') :
    ∃ v, a[i]? = some v ∧ a'[i]? = some ⟨v.name, b⟩
      ∧ (∀ j, i ≠ j → a'[j]? = a[j]?) ∧ a'.length = a.length := by
  unfold setFilterOutput at h
  cases hv : a[i]? with
  | none => rw [hv] at h; cases h
  | some v =>
    rw [hv] at h
    simp only [Option.some.injEq] at h
    subst h
    obtain ⟨hlt, _⟩ := List.getElem?_eq_some.mp hv
    refine ⟨v, rfl, ?_, ?_, ?_⟩
    · rw [List.getElem?_set_self hlt]
    · intro j hij
      rw [List.getElem?_set_ne hij]
    · rw [List.length_set]

theorem setFilterOutput_isSome (a : List STATIC_VAR_DATA) (i : Nat) (b : Bool)
    (h : i < a.length) : ∃ a', setFilterOutput a i b = some a' := by
  unfold setFilterOutput
  rw [List.getElem?_eq_getElem h]
  exact ⟨_, rfl⟩

theorem markDummyState_of_noDummyState (md : MODEL_DATA) (h : noDummyState md) :
    markDummyState md = some md := by
  unfold markDummyState
  rcases h with h | ⟨v, hv, hname⟩
  · rw [if_neg (by omega)]
  · split
    · rw [hv]
      simp only [if_neg hname]
    · rfl

theorem initializeOutputFilter_eq_markDummyState (re : RegexLib) (md : MODEL_DATA)
    (variableFilter : String) :
    initializeOutputFilter re md variableFilter = markDummyState md := by
  unfold initializeOutputFilter
  cases markDummyState md with
  | none => rfl
  | some md' =>
    simp only [returnThen]
    split <;> rfl

/-- What the placeholder rule does when it applies. -/
theorem markDummyState_some (md md' : MODEL_DATA) (h : markDummyState md = some md') :
    md' = md ∨ (md.nStates > 0 ∧ ∃ v0 a1 a2, md.realVarsData[0]? = some v0 ∧ v0.name = "$dummy"
      ∧ setFilterOutput md.realVarsData 0 true = some a1
      ∧ setFilterOutput a1 md.nStates.toNat true = some a2
      ∧ md' = { md with realVarsData := a2 }) := by
  unfold markDummyState at h
  split at h
  · rename_i hpos
    cases hv : md.realVarsData[0]? with
    | none => rw [hv] at h; cases h
    | some v0 =>
      rw [hv] at h
      simp only at h
      split at h
      · rename_i hname
        cases h1 : setFilterOutput md.realVarsData 0 true with
        | none => rw [h1] at h; cases h
        | some a1 =>
          rw [h1] at h
          simp only at h
          cases h2 : setFilterOutput a1 md.nStates.toNat true with
          | none => rw [h2] at h; cases h
          | some a2 =>
            rw [h2] at h
            simp only [Option.some.injEq] at h
            exact Or.inr ⟨hpos, v0, a1, a2, rfl, hname, rfl, h2, h.symm⟩
      · simp only [Option.some.injEq] at h
        exact Or.inl h.symm
  · simp only [Option.some.injEq] at h
    exact Or.inl h.symm

theorem markDummyState_total (md : MODEL_DATA) (hb : statesInBounds md) :
    ∃ md', markDummyState md = some md' := by
  unfold markDummyState
  rcases hb with hb | hb
  · rw [if_neg (by omega)]
    exact ⟨md, rfl⟩
  · split
    · rename_i hpos
      have h0 : 0 < md.realVarsData.length := by omega
      rw [List.getElem?_eq_getElem h0]
      simp only
      split
      · obtain ⟨a1, h1⟩ := setFilterOutput_isSome md.realVarsData 0 true h0
        obtain ⟨_, _, _, _, hlen⟩ := setFilterOutput_some _ _ _ _ h1
        obtain ⟨a2, h2⟩ := setFilterOutput_isSome a1 md.nStates.toNat true (by omega)
        rw [h1]
        simp only [h2]
        exact ⟨_, rfl⟩
      · exact ⟨md, rfl⟩
    · exact ⟨md, rfl⟩

theorem markDummyState_fixed (md md' : MODEL_DATA) (h : markDummyState md = some md') :
    markDummyState md' = some md' := by
  rcases markDummyState_some md md' h with rfl | ⟨hpos, v0, a1, a2, hv0, hname, h1, h2, rfl⟩
  · exact h
  · obtain ⟨u0, hu0, h10, h1ne, _⟩ := setFilterOutput_some _ _ _ _ h1
    obtain ⟨un, hun, h2n, h2ne, _⟩ := setFilterOutput_some _ _ _ _ h2
    have hn : (0 : Nat) ≠ md.nStates.toNat := by omega
    have hu : u0 = v0 := by
      rw [hv0] at hu0
      exact (Option.some.inj hu0).symm
    have h20 : a2[0]? = some ⟨v0.name, true⟩ := by
      rw [h2ne 0 (Ne.symm hn), h10, hu]
    unfold markDummyState
    simp only [if_pos hpos, h20, if_pos hname]
    rw [setFilterOutput_of_marked a2 0 true _ h20 rfl]
    simp only
    rw [setFilterOutput_of_marked a2 _ true _ h2n rfl]

theorem allFlagsClear_excludedCount (md : MODEL_DATA) (h : allFlagsClear md = true) :
    excludedCount md = 0 := by
  unfold allFlagsClear at h
  simp only [Bool.and_eq_true, List.all_eq_true, Bool.not_eq_true'] at h
  obtain ⟨⟨⟨⟨⟨⟨⟨⟨⟨⟨⟨h1, h2⟩, h3⟩, h4⟩, _⟩, _⟩, _⟩, _⟩, h9⟩, h10⟩, h11⟩, h12⟩ := h
  unfold excludedCount
  have e : ∀ (α : Type) (f : α → Bool) (l : List α), (∀ x ∈ l, f x = false) →
      l.countP (fun v => f v) = 0 := by
    intro α f l hl
    rw [List.countP_eq_zero]
    intro x hx
    simp [hl x hx]
  rw [e _ _ _ h1, e _ _ _ h2, e _ _ _ h3, e _ _ _ h4, e _ _ _ h9, e _ _ _ h10, e _ _ _ h11,
    e _ _ _ h12]

theorem markDummyState_of_dummy (md : MODEL_DATA) (hpos : md.nStates > 0)
    (v : STATIC_VAR_DATA) (hv : md.realVarsData[0]? = some v) (hname : v.name = "$dummy")
    (hlt : md.nStates.toNat < md.realVarsData.length) :
    ∃ a1 a2, setFilterOutput md.realVarsData 0 true = some a1
      ∧ setFilterOutput a1 md.nStates.toNat true = some a2
      ∧ markDummyState md = some { md with realVarsData := a2 } := by
  obtain ⟨a1, h1⟩ := setFilterOutput_isSome md.realVarsData 0 true (by omega)
  obtain ⟨_, _, _, _, hlen⟩ := setFilterOutput_some _ _ _ _ h1
  obtain ⟨a2, h2⟩ := setFilterOutput_isSome a1 md.nStates.toNat true (by omega)
  refine ⟨a1, a2, h1, h2, ?_⟩
  unfold markDummyState
  simp only [if_pos hpos, hv, if_pos hname, h1, h2]

theorem markDummyState_alias (md md' : MODEL_DATA) (h : markDummyState md = some md')
    (c : Category) : md'.alias c = md.alias c := by
  rcases markDummyState_some md md' h with rfl | ⟨_, _, _, _, _, _, _, _, rfl⟩
  · rfl
  · cases c <;> rfl

/-! ## Output filter: the claims -/

/-- C4, as stated, fails on a model with the placeholder state: all flags of
`dummyModel` are 0 before the call, and after the call with the pattern ".*" two variables
are marked excluded ("$dummy" and the variable at index `nStates`). -/
theorem initializeOutputFilter_match_all_counterexample :
    allFlagsClear dummyModel = true
      ∧ (initializeOutputFilter literalRegex dummyModel ".*").map excludedCount = some 2 := by
  decide

/-- C4 (amended): for every model to which the placeholder rule does not apply
(no states, or a first real variable not named "$dummy"), whatever its variable
and alias counts and names, the call with the pattern ".*" and all `filterOutput`
flags initially 0 returns with zero variables and aliases marked excluded. -/
theorem initializeOutputFilter_match_all (re : RegexLib) (md : MODEL_DATA)
    (hclear : allFlagsClear md = true) (hrule : noDummyState md) :
    ∃ md', initializeOutputFilter re md ".*" = some md' ∧ excludedCount md' = 0 := by
  refine ⟨md, ?_, allFlagsClear_excludedCount md hclear⟩
  rw [initializeOutputFilter_eq_markDummyState]
  exact markDummyState_of_noDummyState md hrule

/-- C4 (amended) at the one-alias model, which has no states. -/
theorem initializeOutputFilter_match_all_witness :
    allFlagsClear aliasModel = true ∧ noDummyState aliasModel
      ∧ ∃ md', initializeOutputFilter literalRegex aliasModel ".*" = some md'
          ∧ excludedCount md' = 0 :=
  ⟨by decide, Or.inl (by decide),
    initializeOutputFilter_match_all literalRegex aliasModel (by decide) (Or.inl (by decide))⟩

/-- C5: take an alias `y` of a top-level variable `x` (entry `i` of the aliases of
a category `c`, with `aliasType` 0 and target index `nameID`), both unmarked, in
a model whose state count is within its real variables; the model with exactly
one alias and its one target is the case of one-element arrays. For every
pattern that `x` matches and `y` does not, the call returns and the alias is not
excluded: its `filterOutput` flag is 0. -/
theorem initializeOutputFilter_keeps_alias (re : RegexLib) (md : MODEL_DATA) (pattern : String)
    (c : Category) (i : Nat) (y : DATA_ALIAS) (x : STATIC_VAR_DATA)
    (hb : statesInBounds md)
    (hy : (md.alias c)[i]? = some y) (_hty : y.aliasType = 0)
    (_hx : (md.varsData c)[y.nameID]? = some x)
    (hyf : y.filterOutput = false) (_hxf : x.filterOutput = false)
    (_hcomp : re.regcomp ("^(" ++ pattern ++ ")$") = 0)
    (_hmx : re.regexec ("^(" ++ pattern ++ ")$") x.name = 0)
    (_hmy : re.regexec ("^(" ++ pattern ++ ")$") y.name ≠ 0) :
    ∃ md', initializeOutputFilter re md pattern = some md'
      ∧ ((md'.alias c)[i]?).map (fun al => al.filterOutput) = some false := by
  obtain ⟨md', hmd'⟩ := markDummyState_total md hb
  refine ⟨md', ?_, ?_⟩
  · rw [initializeOutputFilter_eq_markDummyState]
    exact hmd'
  · rw [markDummyState_alias md md' hmd' c, hy]
    simp [hyf]

/-- C5 at the model with the one variable "x" and its one alias "y", for the
pattern "x": the variable matches, the alias does not, and the alias stays
included. -/
theorem initializeOutputFilter_keeps_alias_witness :
    statesInBounds aliasModel
      ∧ literalRegex.regexec ("^(" ++ "x" ++ ")$") "x" = 0
      ∧ literalRegex.regexec ("^(" ++ "x" ++ ")$") "y" ≠ 0
      ∧ ∃ md', initializeOutputFilter literalRegex aliasModel "x" = some md'
          ∧ ((md'.alias Category.real)[0]?).map (fun al => al.filterOutput) = some false :=
  ⟨Or.inl (by decide), by decide, by decide,
    initializeOutputFilter_keeps_alias literalRegex aliasModel "x" Category.real 0
      ⟨"y", 0, 0, false⟩ ⟨"x", false⟩ (Or.inl (by decide)) (by decide) (by decide) (by decide)
      (by decide) (by decide) (by decide) (by decide) (by decide)⟩

/-- C6: `initializeOutputFilter` is idempotent. For every model data and every
filter pattern, a second call with the same pattern leaves exactly the model
data (every `filterOutput` flag of every variable, parameter and alias) the
first call produced; and on a model whose state count is within its real variables
both calls return. -/
theorem initializeOutputFilter_idempotent (re : RegexLib) (md : MODEL_DATA) (pattern : String) :
    (initializeOutputFilter re md pattern).bind
        (fun md' => initializeOutputFilter re md' pattern)
      = initializeOutputFilter re md pattern
    ∧ (statesInBounds md → ∃ md', initializeOutputFilter re md pattern = some md'
        ∧ initializeOutputFilter re md' pattern = some md') := by
  constructor
  · rw [initializeOutputFilter_eq_markDummyState]
    cases h : markDummyState md with
    | none => rfl
    | some md' =>
      simp only [Option.some_bind]
      rw [initializeOutputFilter_eq_markDummyState]
      exact markDummyState_fixed md md' h
  · intro hb
    obtain ⟨md', hmd'⟩ := markDummyState_total md hb
    refine ⟨md', ?_, ?_⟩
    · rw [initializeOutputFilter_eq_markDummyState]
      exact hmd'
    · rw [initializeOutputFilter_eq_markDummyState]
      exact markDummyState_fixed md md' hmd'

/-- C6 at the model with the placeholder state: the first call marks two variables,
the second call changes nothing. -/
theorem initializeOutputFilter_idempotent_witness :
    statesInBounds dummyModel
      ∧ ∃ md', initializeOutputFilter literalRegex dummyModel "x" = some md'
          ∧ initializeOutputFilter literalRegex md' "x" = some md' :=
  ⟨Or.inr (by decide),
    (initializeOutputFilter_idempotent literalRegex dummyModel "x").2 (Or.inr (by decide))⟩

/-- C7, the placeholder rule: for every model with `nStates > 0` whose first real variable
is named "$dummy" (and whose real variables reach index `nStates`), and
for every filter pattern, the call returns and both `realVarsData[0]` and
`realVarsData[nStates]` have `filterOutput` = 1; when `nStates` is 0 or the first
real variable has any other name, the rule sets no flag: the model data stay as
they were. -/
theorem initializeOutputFilter_dummy_rule (re : RegexLib) (md : MODEL_DATA) (pattern : String) :
    (md.nStates > 0 → (∃ v, md.realVarsData[0]? = some v ∧ v.name = "$dummy") →
        md.nStates.toNat < md.realVarsData.length →
        ∃ md', initializeOutputFilter re md pattern = some md'
          ∧ (md'.realVarsData[0]?).map (fun v => v.filterOutput) = some true
          ∧ (md'.realVarsData[md.nStates.toNat]?).map (fun v => v.filterOutput) = some true)
    ∧ (noDummyState md →
        markDummyState md = some md ∧ initializeOutputFilter re md pattern = some md) := by
  constructor
  · rintro hpos ⟨v, hv, hname⟩ hlt
    obtain ⟨a1, a2, h1, h2, hmark⟩ := markDummyState_of_dummy md hpos v hv hname hlt
    obtain ⟨u0, _, h10, _, _⟩ := setFilterOutput_some _ _ _ _ h1
    obtain ⟨un, _, h2n, h2ne, _⟩ := setFilterOutput_some _ _ _ _ h2
    have hn : md.nStates.toNat ≠ 0 := by omega
    refine ⟨{ md with realVarsData := a2 }, ?_, ?_, ?_⟩
    · rw [initializeOutputFilter_eq_markDummyState]
      exact hmark
    · simp only
      rw [h2ne 0 hn, h10]
      rfl
    · simp only
      rw [h2n]
      rfl
  · intro h
    have hm := markDummyState_of_noDummyState md h
    refine ⟨hm, ?_⟩
    rw [initializeOutputFilter_eq_markDummyState]
    exact hm

/-- C7 at two models: the placeholder model gets both marks, the model without
states is left as it was. -/
theorem initializeOutputFilter_dummy_rule_witness :
    (∃ md', initializeOutputFilter literalRegex dummyModel "x" = some md'
        ∧ (md'.realVarsData[0]?).map (fun v => v.filterOutput) = some true
        ∧ (md'.realVarsData[dummyModel.nStates.toNat]?).map (fun v => v.filterOutput)
            = some true)
      ∧ initializeOutputFilter literalRegex aliasModel "x" = some aliasModel :=
  ⟨(initializeOutputFilter_dummy_rule literalRegex dummyModel "x").1 (by decide)
      ⟨⟨"$dummy", false⟩, by decide, by decide⟩ (by decide),
    ((initializeOutputFilter_dummy_rule literalRegex aliasModel "x").2
      (Or.inl (by decide))).2⟩

/-! ## Result stream: the claims -/

/-- A branch of `callSolver` in which `solver_main` returns a status: the `free`
hook is called once, after `solver_main`, and that status is returned. -/
theorem callSolver_frees_after_solver_main (tbl : SolverMethods)
    (solver_main : Nat → Globals → Outcome × Globals) (simData : DATA) (g g' : Globals)
    (status : Int)
    (hid : resolveSolverID tbl simData.simulationInfo.solverMethod ≠ S_UNKNOWN)
    (hrun : callSolver_recognized tbl solver_main
      (resolveSolverID tbl simData.simulationInfo.solverMethod) g
        = (Outcome.returned status, g')) :
    callSolver_resolveAndRun tbl solver_main simData g =
      (Outcome.returned status, g'.log (Event.result_free g'.sim_result.free)) := by
  have hne : ¬ (S_UNKNOWN = resolveSolverID tbl simData.simulationInfo.solverMethod) :=
    fun h => hid h.symm
  unfold callSolver_resolveAndRun
  simp only [if_neg hne, hrun, callSolver_finish]

/-- C8 fails for the unrecognized solver name. After `initializeResultData` bound
and called the csv `init` hook, the method "nosuch" sends `callSolver` into the
`THROW` of the unrecognized-solver branch: control leaves `callSolver` by the
non-local jump, `solver_main` did not run, and the `free` hook was called zero
times, not once. -/
theorem callSolver_unrecognized_skips_free :
    (callSolver sampleMethods (constSolver 0) (sampleData "csv" "nosuch") "res.csv" 0
        initialGlobals).1 = Outcome.thrown "see last warning"
      ∧ (callSolver sampleMethods (constSolver 0) (sampleData "csv" "nosuch") "res.csv" 0
          initialGlobals).2.trace.countP isResultInit = 1
      ∧ (callSolver sampleMethods (constSolver 0) (sampleData "csv" "nosuch") "res.csv" 0
          initialGlobals).2.trace.countP isSolverMain = 0
      ∧ (callSolver sampleMethods (constSolver 0) (sampleData "csv" "nosuch") "res.csv" 0
          initialGlobals).2.trace.countP isResultFree = 0 := by
  decide

/-- C9: for a non-interactive run without the no-emit flag, `initializeResultData`
returns nonzero iff the output format tag is none of "empty", "csv", "mat",
"plt"; in that case it returns 1, leaves the four hooks as they were, calls no
`init` hook (the one thing it does after storing file name, capacity and
cpu-time switch is the message on `cerr`), and `callSolver` returns -1 at once,
whatever the integrator table and `solver_main` are: no solver is resolved or
run. -/
theorem initializeResultData_unknown_format (simData : DATA) (result_file_cstr : String)
    (cpuTime : Int) (g : Globals)
    (hi : g.interactiveSimulation = 0) (hn : g.sim_noemit = 0) :
    ((initializeResultData simData result_file_cstr cpuTime g).1 ≠ 0
        ↔ simData.simulationInfo.outputFormat ∉ knownOutputFormats)
      ∧ (simData.simulationInfo.outputFormat ∉ knownOutputFormats →
          initializeResultData simData result_file_cstr cpuTime g =
            (1, { g with
                  sim_result := { g.sim_result with
                    filename := result_file_cstr
                    numpoints := wrapLong (4 * simData.simulationInfo.numSteps)
                    cpuTime := cpuTime }
                  trace := g.trace ++ [Event.cerr
                    ("Unknown output format: " ++ simData.simulationInfo.outputFormat)] })
          ∧ (initializeResultData simData result_file_cstr cpuTime g).2.sim_result.init
              = g.sim_result.init
          ∧ (initializeResultData simData result_file_cstr cpuTime g).2.sim_result.emit
              = g.sim_result.emit
          ∧ (initializeResultData simData result_file_cstr cpuTime g).2.sim_result.writeParameterData
              = g.sim_result.writeParameterData
          ∧ (initializeResultData simData result_file_cstr cpuTime g).2.sim_result.free
              = g.sim_result.free
          ∧ ∀ (tbl : SolverMethods) (solver_main : Nat → Globals → Outcome × Globals),
              callSolver tbl solver_main simData result_file_cstr cpuTime g =
                (Outcome.returned (-1),
                  (initializeResultData simData result_file_cstr cpuTime g).2)) := by
  have hunk : simData.simulationInfo.outputFormat ∉ knownOutputFormats →
      initializeResultData simData result_file_cstr cpuTime g =
        (1, { g with
              sim_result := { g.sim_result with
                filename := result_file_cstr
                numpoints := wrapLong (4 * simData.simulationInfo.numSteps)
                cpuTime := cpuTime }
              trace := g.trace ++ [Event.cerr
                ("Unknown output format: " ++ simData.simulationInfo.outputFormat)] }) := by
    intro h
    simp only [knownOutputFormats, List.mem_cons, List.mem_singleton, not_or,
      List.mem_nil_iff, or_false] at h
    obtain ⟨h1, h2, h3, h4⟩ := h
    simp [initializeResultData, isInteractiveSimulation, hi, hn, h1, h2, h3, h4, Globals.log]
  constructor
  · constructor
    · intro hne hmem
      apply hne
      simp only [knownOutputFormats, List.mem_cons, List.mem_singleton, List.mem_nil_iff,
        or_false] at hmem
      unfold initializeResultData
      simp only [isInteractiveSimulation, hi, hn, ne_eq, not_true_eq_false, false_or]
      rcases hmem with h | h | h | h <;> simp [h, initializeResultData_finish]
    · intro h
      rw [hunk h]
      exact one_ne_zero
  · intro h
    have hr := hunk h
    refine ⟨hr, ?_, ?_, ?_, ?_, ?_⟩
    · rw [hr]
    · rw [hr]
    · rw [hr]
    · rw [hr]
    · intro tbl solver_main
      unfold callSolver
      simp only [hr]
      rfl

/-- C9 at the format tag "xyz": `initializeResultData` returns nonzero and
`callSolver` returns -1. -/
theorem initializeResultData_unknown_format_witness :
    initialGlobals.interactiveSimulation = 0 ∧ initialGlobals.sim_noemit = 0
      ∧ (initializeResultData (sampleData "xyz" "dassl") "res.xyz" 0 initialGlobals).1 ≠ 0
      ∧ (callSolver sampleMethods (constSolver 0) (sampleData "xyz" "dassl") "res.xyz" 0
          initialGlobals).1 = Outcome.returned (-1) :=
  have h := initializeResultData_unknown_format (sampleData "xyz" "dassl") "res.xyz" 0
    initialGlobals rfl rfl
  ⟨rfl, rfl, h.1.mpr (by decide),
    by rw [(h.2 (by decide)).2.2.2.2.2 sampleMethods (constSolver 0)]⟩

/-- C10: whenever the run is interactive or the no-emit flag `sim_noemit` is set,
then for every output format tag, known or not, `initializeResultData` leaves
the four hooks `init`, `emit`, `writeParameterData`, `free` as they were before
the call (the no-op defaults stay in place, no csv, mat or plt implementation is
bound), calls that prior `init` hook, and returns 0. -/
theorem initializeResultData_noemit (simData : DATA) (result_file_cstr : String)
    (cpuTime : Int) (g : Globals)
    (h : g.interactiveSimulation ≠ 0 ∨ g.sim_noemit ≠ 0) :
    (initializeResultData simData result_file_cstr cpuTime g).1 = 0
      ∧ (initializeResultData simData result_file_cstr cpuTime g).2.sim_result.init
          = g.sim_result.init
      ∧ (initializeResultData simData result_file_cstr cpuTime g).2.sim_result.emit
          = g.sim_result.emit
      ∧ (initializeResultData simData result_file_cstr cpuTime g).2.sim_result.writeParameterData
          = g.sim_result.writeParameterData
      ∧ (initializeResultData simData result_file_cstr cpuTime g).2.sim_result.free
          = g.sim_result.free
      ∧ (initializeResultData simData result_file_cstr cpuTime g).2.trace =
          g.trace ++ [Event.result_init g.sim_result.init,
            Event.info "Allocated simulation result data storage for method '%s' and file='%s'"
              [simData.simulationInfo.outputFormat, result_file_cstr]] := by
  have hc : isInteractiveSimulation
        { g with sim_result := { g.sim_result with
            filename := result_file_cstr
            numpoints := wrapLong (4 * simData.simulationInfo.numSteps)
            cpuTime := cpuTime } } ≠ 0
      ∨ g.sim_noemit ≠ 0 ∨ simData.simulationInfo.outputFormat = "empty" := by
    rcases h with h | h
    · exact Or.inl h
    · exact Or.inr (Or.inl h)
  unfold initializeResultData
  simp only [if_pos hc]
  simp [initializeResultData_finish, Globals.log]

/-- C10 at an interactive run with the unknown format tag "xyz" and the hooks at
their no-op defaults: the call returns 0 and the `free` hook is still the no-op
one. -/
theorem initializeResultData_noemit_witness :
    (initializeResultData (sampleData "xyz" "dassl") "res.xyz" 0
        { initialGlobals with interactiveSimulation := 1 }).1 = 0
      ∧ (initializeResultData (sampleData "xyz" "dassl") "res.xyz" 0
          { initialGlobals with interactiveSimulation := 1 }).2.sim_result.free
          = ResultImpl.noemit :=
  have h := initializeResultData_noemit (sampleData "xyz" "dassl") "res.xyz" 0
    { initialGlobals with interactiveSimulation := 1 } (Or.inl (by decide))
  ⟨h.1, h.2.2.2.2.1⟩

/-! ## Output filter: independence of the pattern -/

theorem wrapLong_of_range (x : Int) (h1 : -(2 ^ 63) ≤ x) (h2 : x < 2 ^ 63) :
    wrapLong x = x := by
  unfold wrapLong
  omega

theorem wrapLong_overflow : wrapLong (4 * 2 ^ 62) = 0 := by
  decide

theorem anchored_ne_match_all (pattern : String) : "^(" ++ pattern ++ ")$" ≠ ".*" := by
  intro h
  have hd := congrArg String.data h
  simp [String.data_append] at hd

theorem markDummyState_frame (md md' : MODEL_DATA) (h : markDummyState md = some md') :
    (∀ c, md'.alias c = md.alias c)
      ∧ (∀ c, md'.parameterData c = md.parameterData c)
      ∧ (∀ c, c ≠ Category.real → md'.varsData c = md.varsData c)
      ∧ md'.realVarsData.length = md.realVarsData.length
      ∧ (∀ j, j ≠ 0 → j ≠ md.nStates.toNat → md'.realVarsData[j]? = md.realVarsData[j]?)
      ∧ (∀ (j : Nat) (v' : STATIC_VAR_DATA), md'.realVarsData[j]? = some v' →
          ∃ v : STATIC_VAR_DATA, md.realVarsData[j]? = some v ∧ v'.name = v.name
            ∧ (v'.filterOutput = v.filterOutput ∨ v'.filterOutput = true)) := by
  rcases markDummyState_some md md' h with rfl | ⟨_, v0, a1, a2, _, _, h1, h2, rfl⟩
  · refine ⟨fun _ => rfl, fun _ => rfl, fun _ _ => rfl, rfl, fun _ _ _ => rfl, ?_⟩
    intro j v' hv'
    exact ⟨v', hv', rfl, Or.inl rfl⟩
  · obtain ⟨u0, hu0, h10, h1ne, hlen1⟩ := setFilterOutput_some _ _ _ _ h1
    obtain ⟨un, hun, h2n, h2ne, hlen2⟩ := setFilterOutput_some _ _ _ _ h2
    have step : ∀ (a a' : List STATIC_VAR_DATA) (i : Nat),
        setFilterOutput a i true = some a' → ∀ (j : Nat) (v' : STATIC_VAR_DATA), a'[j]? = some v' →
          ∃ v : STATIC_VAR_DATA, a[j]? = some v ∧ v'.name = v.name
            ∧ (v'.filterOutput = v.filterOutput ∨ v'.filterOutput = true) := by
      intro a a' i hs j v' hv'
      obtain ⟨w, hw, hi, hne, _⟩ := setFilterOutput_some _ _ _ _ hs
      by_cases hij : i = j
      · subst hij
        rw [hi] at hv'
        have hv := (Option.some.inj hv').symm
        exact ⟨w, hw, by rw [hv], Or.inr (by rw [hv])⟩
      · rw [hne j hij] at hv'
        exact ⟨v', hv', rfl, Or.inl rfl⟩
    refine ⟨?_, ?_, ?_, ?_, ?_, ?_⟩
    · intro c
      cases c <;> rfl
    · intro c
      cases c <;> rfl
    · intro c hc
      cases c
      · exact absurd rfl hc
      · rfl
      · rfl
      · rfl
    · show a2.length = md.realVarsData.length
      rw [hlen2, hlen1]
    · intro j hj0 hjn
      show a2[j]? = md.realVarsData[j]?
      rw [h2ne j (Ne.symm hjn), h1ne j (Ne.symm hj0)]
    · intro j v' hv'
      obtain ⟨w, hw, hname, hflag⟩ := step a1 a2 _ h2 j v' hv'
      obtain ⟨v, hv, hname', hflag'⟩ := step _ a1 _ h1 j w hw
      refine ⟨v, hv, hname.trans hname', ?_⟩
      rcases hflag with hf | hf
      · rcases hflag' with hf' | hf'
        · exact Or.inl (hf.trans hf')
        · exact Or.inr (hf.trans hf')
      · exact Or.inr hf

/-- C17: the result of `initializeOutputFilter` depends neither on the filter
pattern nor on the regular-expression library. For every model data, the call
with a pattern `p` gives what the call with any pattern `q` gives, which is the
result of the placeholder rule of lines 340-343 alone; the anchored string
"^(" + pattern + ")$" is never equal to ".*"; and when the call returns, the
aliases, the parameters and the variables of the other categories are as
before, the real variables other than `realVarsData[0]` and
`realVarsData[nStates]` are as before, no name changes, and a flag that
changed is now 1; on a model without the placeholder nothing changes at all. -/
theorem initializeOutputFilter_pattern_independent (re re' : RegexLib) (md : MODEL_DATA)
    (p q : String) :
    initializeOutputFilter re md p = initializeOutputFilter re' md q
      ∧ initializeOutputFilter re md p = markDummyState md
      ∧ "^(" ++ p ++ ")$" ≠ ".*"
      ∧ (∀ md', initializeOutputFilter re md p = some md' →
          (∀ c, md'.alias c = md.alias c)
            ∧ (∀ c, md'.parameterData c = md.parameterData c)
            ∧ (∀ c, c ≠ Category.real → md'.varsData c = md.varsData c)
            ∧ md'.realVarsData.length = md.realVarsData.length
            ∧ (∀ j, j ≠ 0 → j ≠ md.nStates.toNat →
                md'.realVarsData[j]? = md.realVarsData[j]?)
            ∧ (∀ (j : Nat) (v' : STATIC_VAR_DATA), md'.realVarsData[j]? = some v' →
                ∃ v : STATIC_VAR_DATA, md.realVarsData[j]? = some v ∧ v'.name = v.name
                  ∧ (v'.filterOutput = v.filterOutput ∨ v'.filterOutput = true))
            ∧ (noDummyState md → md' = md)) := by
  refine ⟨?_, initializeOutputFilter_eq_markDummyState re md p, anchored_ne_match_all p, ?_⟩
  · rw [initializeOutputFilter_eq_markDummyState, initializeOutputFilter_eq_markDummyState]
  · intro md' h
    rw [initializeOutputFilter_eq_markDummyState] at h
    obtain ⟨h1, h2, h3, h4, h5, h6⟩ := markDummyState_frame md md' h
    refine ⟨h1, h2, h3, h4, h5, h6, ?_⟩
    intro hno
    rw [markDummyState_of_noDummyState md hno] at h
    exact (Option.some.inj h).symm

/-- C17 at the one-alias model: the call with the pattern "x" (which the alias
"y" does not match) returns the model unchanged, as the call with "y" does. -/
theorem initializeOutputFilter_pattern_independent_witness :
    initializeOutputFilter literalRegex aliasModel "x"
        = initializeOutputFilter literalRegex aliasModel "y"
      ∧ initializeOutputFilter literalRegex aliasModel "x" = some aliasModel :=
  have h := initializeOutputFilter_pattern_independent literalRegex literalRegex aliasModel
    "x" "y"
  ⟨h.1, by rw [h.2.1]; decide⟩

/-! ## Error handlers: the claims -/

theorem truncateText_of_le (text : String) (n : Nat) (h : text.length ≤ n) :
    truncateText text n = text := by
  unfold truncateText
  rw [List.take_of_length_le h]

theorem truncateText_length_le (text : String) (n : Nat) :
    (truncateText text n).length ≤ n := by
  unfold truncateText
  show (text.data.take n).length ≤ n
  rw [List.length_take]
  omega

theorem setTermMsg_spec (vformat : String → List String → String) (msg : String)
    (ap apUsed : List String) (s : Runtime) :
    ((vformat msg ap).length < termMsgCapacity msg s →
        (setTermMsg vformat msg ap apUsed s).TermMsg = some (vformat msg ap))
      ∧ (termMsgCapacity msg s ≤ (vformat msg ap).length →
        (setTermMsg vformat msg ap apUsed s).TermMsg
          = some (truncateText (vformat msg apUsed) (2 * (vformat msg ap).length)))
      ∧ (setTermMsg vformat msg ap apUsed s).terminationTerminate = s.terminationTerminate
      ∧ (setTermMsg vformat msg ap apUsed s).globals = s.globals
      ∧ (setTermMsg vformat msg ap apUsed s).calls = s.calls := by
  have h2i : 2 * (vformat msg ap).length + 1 - 1 = 2 * (vformat msg ap).length := by omega
  unfold setTermMsg termMsgCapacity
  simp only [h2i]
  by_cases hn : s.TermMsg = none
  · simp only [hn, if_true]
    have hpos : ¬ max (msg.length * 2 + 1) 2048 = 0 := by omega
    simp only [hpos, if_false]
    by_cases hi : (vformat msg ap).length ≥ max (msg.length * 2 + 1) 2048
    · simp only [ge_iff_le, hi, if_true]
      exact ⟨fun h => absurd hi (Nat.not_le.mpr h), fun _ => trivial, trivial, trivial, trivial⟩
    · simp only [ge_iff_le, hi, if_false]
      refine ⟨fun _ => ?_, fun h => False.elim h, trivial, trivial, trivial⟩
      rw [truncateText_of_le _ _ (by omega)]
  · simp only [hn, if_false]
    by_cases hz : s.termMsgSize = 0
    · simp only [hz, if_true, ge_iff_le, Nat.zero_le]
      exact ⟨fun h => absurd h (by omega), fun _ => trivial, trivial, trivial, trivial⟩
    · simp only [hz, if_false]
      by_cases hi : (vformat msg ap).length ≥ s.termMsgSize
      · simp only [ge_iff_le, hi, if_true]
        exact ⟨fun h => absurd hi (Nat.not_le.mpr h), fun _ => trivial, trivial, trivial, trivial⟩
      · simp only [ge_iff_le, hi, if_false]
        refine ⟨fun _ => ?_, fun h => False.elim h, trivial, trivial, trivial⟩
        rw [truncateText_of_le _ _ (by omega)]

/-- C11: error-class dispatch in `omc_assert_simulation`, for case labels that
are pairwise different (as the labels of a C switch are). The jump states
`ERROR_SIMULATION`, `ERROR_NONLINEARSOLVER` and `ERROR_INTEGRATOR` end the call
with a `longjmp` to `simulationJmpbuf`, `nonlinearJmpbuf` and
`integratorJmpbuf`, three pairwise distinct recovery points; for
`ERROR_EVENTSEARCH` and `ERROR_OPTIMIZE` the call returns normally with the state
unchanged; every other jump state takes the `THROW` to `globalJmpbuf`. -/
theorem omc_assert_simulation_dispatch (es : ErrorStages) (st : LogStreams)
    (vformat : String → List String → String) (msg : String) (ap : List String)
    (s : Runtime) (hlabels : es.caseLabels.Nodup) :
    (s.currectJumpState = es.ERROR_SIMULATION →
        (omc_assert_simulation es st vformat msg ap s).1
          = Control.longjmp JumpBuffer.simulationJmpbuf 1)
      ∧ (s.currectJumpState = es.ERROR_NONLINEARSOLVER →
        (omc_assert_simulation es st vformat msg ap s).1
          = Control.longjmp JumpBuffer.nonlinearJmpbuf 1)
      ∧ (s.currectJumpState = es.ERROR_INTEGRATOR →
        (omc_assert_simulation es st vformat msg ap s).1
          = Control.longjmp JumpBuffer.integratorJmpbuf 1)
      ∧ JumpBuffer.simulationJmpbuf ≠ JumpBuffer.nonlinearJmpbuf
      ∧ JumpBuffer.simulationJmpbuf ≠ JumpBuffer.integratorJmpbuf
      ∧ JumpBuffer.nonlinearJmpbuf ≠ JumpBuffer.integratorJmpbuf
      ∧ (s.currectJumpState = es.ERROR_EVENTSEARCH ∨ s.currectJumpState = es.ERROR_OPTIMIZE →
        omc_assert_simulation es st vformat msg ap s = (Control.returned 0, s))
      ∧ (s.currectJumpState ∉ es.caseLabels →
        omc_assert_simulation es st vformat msg ap s
            = Runtime.THROW "Unhandled Assertion-Error" s
          ∧ (omc_assert_simulation es st vformat msg ap s).1
            = Control.longjmp JumpBuffer.globalJmpbuf 1) := by
  simp only [ErrorStages.caseLabels, List.nodup_cons, List.mem_cons, List.mem_singleton,
    List.not_mem_nil, not_or, List.nodup_nil, or_false, not_false_eq_true, and_true]
    at hlabels
  obtain ⟨⟨h12, h13, h14, h15⟩, ⟨h23, h24, h25⟩, ⟨h34, h35⟩, h45⟩ := hlabels
  refine ⟨?_, ?_, ?_, by decide, by decide, by decide, ?_, ?_⟩
  · intro h
    simp [omc_assert_simulation, h]
  · intro h
    have h1 : ¬ es.ERROR_NONLINEARSOLVER = es.ERROR_SIMULATION := fun e => h12 e.symm
    simp [omc_assert_simulation, h, h1]
  · intro h
    have h1 : ¬ es.ERROR_INTEGRATOR = es.ERROR_SIMULATION := fun e => h13 e.symm
    have h2 : ¬ es.ERROR_INTEGRATOR = es.ERROR_NONLINEARSOLVER := fun e => h23 e.symm
    simp [omc_assert_simulation, h, h1, h2]
  · intro h
    have e1 : ¬ s.currectJumpState = es.ERROR_SIMULATION := by
      rcases h with h | h <;> rw [h] <;> intro e
      · exact h14 e.symm
      · exact h15 e.symm
    have e2 : ¬ s.currectJumpState = es.ERROR_NONLINEARSOLVER := by
      rcases h with h | h <;> rw [h] <;> intro e
      · exact h24 e.symm
      · exact h25 e.symm
    have e3 : ¬ s.currectJumpState = es.ERROR_INTEGRATOR := by
      rcases h with h | h <;> rw [h] <;> intro e
      · exact h34 e.symm
      · exact h35 e.symm
    unfold omc_assert_simulation
    rw [if_neg e1, if_neg e2, if_neg e3, if_pos h]
  · intro h
    simp only [ErrorStages.caseLabels, List.mem_cons, List.mem_singleton, List.not_mem_nil,
      not_or, or_false] at h
    obtain ⟨e1, e2, e3, e4, e5⟩ := h
    have e45 : ¬ (s.currectJumpState = es.ERROR_EVENTSEARCH
        ∨ s.currectJumpState = es.ERROR_OPTIMIZE) := fun e => e.elim e4 e5
    have hthrow : omc_assert_simulation es st vformat msg ap s
        = Runtime.THROW "Unhandled Assertion-Error" s := by
      unfold omc_assert_simulation
      rw [if_neg e1, if_neg e2, if_neg e3, if_neg e45]
    exact ⟨hthrow, by rw [hthrow]; rfl⟩

/-- C11 at the sample stages: with the jump state of the integrator the call
jumps to `integratorJmpbuf`; with the jump state of the event search it returns
and leaves the state alone; with the jump state 0 it takes the `THROW`. -/
theorem omc_assert_simulation_dispatch_witness :
    sampleStages.caseLabels.Nodup
      ∧ (omc_assert_simulation sampleStages sampleStreams plainFormat "division by zero" []
          { initialRuntime (sampleData "csv" "") with currectJumpState := 3 }).1
          = Control.longjmp JumpBuffer.integratorJmpbuf 1
      ∧ (omc_assert_simulation sampleStages sampleStreams plainFormat "division by zero" []
          { initialRuntime (sampleData "csv" "") with currectJumpState := 4 }).1
          = Control.returned 0
      ∧ (omc_assert_simulation sampleStages sampleStreams plainFormat "division by zero" []
          (initialRuntime (sampleData "csv" ""))).1
          = Control.longjmp JumpBuffer.globalJmpbuf 1 :=
  ⟨by decide,
    (omc_assert_simulation_dispatch sampleStages sampleStreams plainFormat "division by zero"
      [] { initialRuntime (sampleData "csv" "") with currectJumpState := 3 }
      (by decide)).2.2.1 rfl,
    by
      rw [(omc_assert_simulation_dispatch sampleStages sampleStreams plainFormat
        "division by zero" [] { initialRuntime (sampleData "csv" "") with currectJumpState := 4 }
        (by decide)).2.2.2.2.2.2.1 (Or.inl rfl)],
    ((omc_assert_simulation_dispatch sampleStages sampleStreams plainFormat "division by zero"
      [] (initialRuntime (sampleData "csv" "")) (by decide)).2.2.2.2.2.2.2 (by decide)).2⟩

/-- C12, as stated, fails: `omc_throw_simulation`, called with the termination
flag at 0, ends with the jump to `globalJmpbuf` and the flag is still 0 at that
moment (the message is stored). -/
theorem omc_throw_simulation_flag_counterexample :
    (initialRuntime (sampleData "csv" "")).terminationTerminate = 0
      ∧ (omc_throw_simulation plainFormat sampleFileInfo [] []
          (initialRuntime (sampleData "csv" ""))).1 = Control.longjmp JumpBuffer.globalJmpbuf 1
      ∧ (omc_throw_simulation plainFormat sampleFileInfo [] []
          (initialRuntime (sampleData "csv" ""))).2.terminationTerminate = 0
      ∧ (omc_throw_simulation plainFormat sampleFileInfo [] []
          (initialRuntime (sampleData "csv" ""))).2.TermMsg
          = some "Assertion triggered by external C function" := by
  decide

/-- C12 (amended): the handler that unwinds by non-local jump to the top-level run
function, `omc_throw_simulation`, has at the moment of the jump stored a
termination message in `TermMsg` (and the dummy file position in `TermInfo`),
and leaves the termination flag `terminationTerminate` as it was. The message is
the formatted text whenever that fits the buffer, and in any case when the
format text has no conversion (the formatted text is then the same for every
argument list), as is the case for the text of this handler. The flag is set
to 1, with a message and the position, by `omc_terminate_simulation`, which
returns normally, without a jump; its message is the formatted text when that
fits the buffer, and else what the second `vsnprintf` makes of the used
argument list, cut to twice the length of the first result. -/
theorem omc_throw_simulation_state (vformat : String → List String → String)
    (omc_dummyFileInfo info : FILE_INFO) (msg : String) (ap apUsed : List String)
    (s : Runtime) :
    ((omc_throw_simulation vformat omc_dummyFileInfo ap apUsed s).1
          = Control.longjmp JumpBuffer.globalJmpbuf 1
        ∧ (∃ text, (omc_throw_simulation vformat omc_dummyFileInfo ap apUsed s).2.TermMsg
            = some text)
        ∧ ((vformat "Assertion triggered by external C function" ap).length
              < termMsgCapacity "Assertion triggered by external C function" s →
            (omc_throw_simulation vformat omc_dummyFileInfo ap apUsed s).2.TermMsg
              = some (vformat "Assertion triggered by external C function" ap))
        ∧ ((∀ a b, vformat "Assertion triggered by external C function" a
              = vformat "Assertion triggered by external C function" b) →
            (omc_throw_simulation vformat omc_dummyFileInfo ap apUsed s).2.TermMsg
              = some (vformat "Assertion triggered by external C function" ap))
        ∧ (omc_throw_simulation vformat omc_dummyFileInfo ap apUsed s).2.TermInfo
          = omc_dummyFileInfo
        ∧ (omc_throw_simulation vformat omc_dummyFileInfo ap apUsed s).2.terminationTerminate
          = s.terminationTerminate)
      ∧ ((omc_terminate_simulation vformat info msg ap apUsed s).1 = Control.returned 0
        ∧ (omc_terminate_simulation vformat info msg ap apUsed s).2.terminationTerminate = 1
        ∧ (∃ text, (omc_terminate_simulation vformat info msg ap apUsed s).2.TermMsg
            = some text)
        ∧ ((vformat msg ap).length < termMsgCapacity msg s →
            (omc_terminate_simulation vformat info msg ap apUsed s).2.TermMsg
              = some (vformat msg ap))
        ∧ (termMsgCapacity msg s ≤ (vformat msg ap).length →
            (omc_terminate_simulation vformat info msg ap apUsed s).2.TermMsg
              = some (truncateText (vformat msg apUsed) (2 * (vformat msg ap).length)))
        ∧ (omc_terminate_simulation vformat info msg ap apUsed s).2.TermInfo = info) := by
  have key : ∀ (m : String) (t : Runtime),
      ∃ text, (setTermMsg vformat m ap apUsed t).TermMsg = some text := by
    intro m t
    by_cases h : (vformat m ap).length < termMsgCapacity m t
    · exact ⟨_, (setTermMsg_spec vformat m ap apUsed t).1 h⟩
    · exact ⟨_, (setTermMsg_spec vformat m ap apUsed t).2.1 (Nat.le_of_not_lt h)⟩
  refine ⟨⟨rfl, key _ s, (setTermMsg_spec vformat _ ap apUsed s).1, ?_, rfl,
      (setTermMsg_spec vformat _ ap apUsed s).2.2.1⟩,
    rfl, (setTermMsg_spec vformat msg ap apUsed { s with terminationTerminate := 1 }).2.2.1,
    key _ _, (setTermMsg_spec vformat msg ap apUsed { s with terminationTerminate := 1 }).1,
    (setTermMsg_spec vformat msg ap apUsed { s with terminationTerminate := 1 }).2.1, rfl⟩
  intro hplain
  by_cases h : (vformat "Assertion triggered by external C function" ap).length
      < termMsgCapacity "Assertion triggered by external C function" s
  · exact (setTermMsg_spec vformat _ ap apUsed s).1 h
  · have h2 := (setTermMsg_spec vformat _ ap apUsed s).2.1 (Nat.le_of_not_lt h)
    rw [hplain apUsed ap, truncateText_of_le _ _ (by omega)] at h2
    exact h2

/-- C12 (amended) at the state of program start with a formatter that returns
the format text: the message of `omc_throw_simulation` fits the fresh buffer of
2048 characters and is stored in full. -/
theorem omc_throw_simulation_state_witness :
    (omc_throw_simulation plainFormat sampleFileInfo [] []
        (initialRuntime (sampleData "csv" ""))).2.TermMsg
      = some (plainFormat "Assertion triggered by external C function" []) :=
  (omc_throw_simulation_state plainFormat sampleFileInfo sampleFileInfo "stop" [] []
    (initialRuntime (sampleData "csv" ""))).1.2.2.1 (by decide)

/-! ## Start-up and the top level: the claims -/

/-- The test of lines 833-837 reports a model exactly when it has no real variable
but has integer and boolean variables. -/
theorem initRuntimeAndSimulation_finish_reports_iff (env : Env) (s : Runtime) :
    (initRuntimeAndSimulation_finish env s).1 = Control.returned 1
      ↔ (s.data.modelData.nVariablesReal = 0 ∧ s.data.modelData.nVariablesInteger ≠ 0
          ∧ s.data.modelData.nVariablesBoolean ≠ 0) := by
  unfold initRuntimeAndSimulation_finish
  split
  · rename_i h
    simp [h]
  · rename_i h
    simp only [h, iff_false]
    decide

/-- The state in which `_main_SimulationRuntime` ends after a jump to
`globalJmpbuf` arrived in state `s`: the port is closed if it was open, nothing
else is called. -/
theorem _main_SimulationRuntime_exit_calls (retVal : Int) (s : Runtime) :
    (_main_SimulationRuntime_exit retVal s).1 = Control.exited retVal
      ∧ (_main_SimulationRuntime_exit retVal s).2.calls = s.calls ++
          (if s.sim_communication_port_open ≠ 0 then ["sim_communication_port.close"] else []) := by
  unfold _main_SimulationRuntime_exit EXIT
  refine ⟨rfl, ?_⟩
  simp only
  split
  · rfl
  · simp

/-- C13 fails on the command line `-s nosuch`. The start-up allocates the mixed,
linear and nonlinear solver systems and returns 0; `callSolver` then takes the
`THROW` of the unrecognized solver; the jump unwinds to the `else` branch of the
top level, and the run ends with status -1 without any of the cleanup calls of
the normal path (`freemixedSystem`, `freelinearSystem`, `freeNonlinearSystem`,
`deInitializeDataStruc`). The same command line with a registered solver name
reaches all four. -/
theorem _main_SimulationRuntime_throw_skips_cleanup :
    (_main_SimulationRuntime (sampleEnv solverFlag solverFlagValue) "model"
        (initialRuntime (sampleData "csv" ""))).map
        (fun r => (r.1, r.2.calls.contains "allocatemixedSystem",
          r.2.calls.filter (fun c => cleanupCalls.contains c)))
      = some (Control.exited (-1), true, [])
    ∧ (_main_SimulationRuntime (sampleEnv noFlag noFlagValue) "model"
        (initialRuntime (sampleData "csv" ""))).map
        (fun r => (r.1, r.2.calls.contains "allocatemixedSystem",
          r.2.calls.filter (fun c => cleanupCalls.contains c)))
      = some (Control.exited 0, true, cleanupCalls) := by
  decide

/-- C14 fails on the model without variables. With `nVariablesReal`,
`nVariablesInteger` and `nVariablesBoolean` all 0, `initRuntimeAndSimulation`
reports nothing and returns 0, and `_main_SimulationRuntime` goes on to run the
simulation (`solver_main` is called) and ends with status 0; the message "No variables
in the model." and the status 1 are what a model with integer and
boolean variables but no real variable gets. -/
theorem initRuntimeAndSimulation_empty_model_not_reported :
    ((sampleData "csv" "").modelData.nVariablesReal = 0
        ∧ (sampleData "csv" "").modelData.nVariablesInteger = 0
        ∧ (sampleData "csv" "").modelData.nVariablesBoolean = 0)
      ∧ (initRuntimeAndSimulation (sampleEnv noFlag noFlagValue) "model"
          (initialRuntime (sampleData "csv" ""))).map (fun r => (r.1, r.2.globals.trace))
        = some (Control.returned 0, [])
      ∧ (_main_SimulationRuntime (sampleEnv noFlag noFlagValue) "model"
          (initialRuntime (sampleData "csv" ""))).map
          (fun r => (r.1, r.2.globals.trace.countP isSolverMain))
        = some (Control.exited 0, 1)
      ∧ (initRuntimeAndSimulation (sampleEnv noFlag noFlagValue) "model"
          (initialRuntime { sampleData "csv" "" with modelData := integerBooleanModel })).map
          (fun r => (r.1, r.2.globals.trace))
        = some (Control.returned 1, [Event.cerr "No variables in the model."]) := by
  decide

/-! ## Verbosity streams: lemmas -/

theorem setStream_self (u : Nat → Int) (i : Nat) : setStream u i i = 1 := by
  simp [setStream]

theorem setStream_of_ne (u : Nat → Int) (i j : Nat) (h : j ≠ i) : setStream u i j = u j := by
  simp [setStream, h]

theorem setStream_cases (u : Nat → Int) (i j : Nat) :
    setStream u i j = u j ∨ setStream u i j = 1 := by
  unfold setStream
  split
  · exact Or.inr rfl
  · exact Or.inl rfl

theorem flagValued_setStream (u : Nat → Int) (i : Nat) (h : flagValued u) :
    flagValued (setStream u i) := by
  intro j
  rcases setStream_cases u i j with e | e <;> rw [e]
  · exact h j
  · exact Or.inr rfl

theorem foldl_setStream (l : List Nat) (u : Nat → Int) (j : Nat) :
    (l.foldl setStream u) j = if j ∈ l then 1 else u j := by
  induction l generalizing u with
  | nil => simp
  | cons x xs ih =>
    rw [List.foldl_cons, ih]
    by_cases hxs : j ∈ xs
    · simp [hxs]
    · by_cases hx : j = x
      · subst hx
        simp [hxs, setStream_self]
      · simp [hxs, hx, setStream_of_ne]

theorem enableAllStreams_spec (st : LogStreams) (u : Nat → Int) (j : Nat) :
    enableAllStreams st u j = if 1 ≤ j ∧ j < st.LOG_MAX then 1 else u j := by
  unfold enableAllStreams
  rw [foldl_setStream]
  have hiff : j ∈ List.range' 1 (st.LOG_MAX - 1) ↔ (1 ≤ j ∧ j < st.LOG_MAX) := by
    rw [List.mem_range'_1]
    omega
  by_cases h : 1 ≤ j ∧ j < st.LOG_MAX
  · rw [if_pos (hiff.mpr h), if_pos h]
  · rw [if_neg (fun e => h (hiff.mp e)), if_neg h]

theorem foldl_matchStream (name : Nat → String) (flag : String) :
    ∀ (l : List Nat) (e : Int) (u : Nat → Int),
      (l.foldl (fun (r : Int × (Nat → Int)) i =>
          if flag = name i then (0, setStream r.2 i) else r) (e, u)).1
          = (if ∃ i ∈ l, flag = name i then 0 else e)
        ∧ ∀ j, (l.foldl (fun (r : Int × (Nat → Int)) i =>
            if flag = name i then (0, setStream r.2 i) else r) (e, u)).2 j
            = (if j ∈ l ∧ flag = name j then 1 else u j) := by
  intro l
  induction l with
  | nil => intro e u; simp
  | cons x xs ih =>
    intro e u
    rw [List.foldl_cons]
    by_cases hx : flag = name x
    · simp only [if_pos hx]
      obtain ⟨h1, h2⟩ := ih 0 (setStream u x)
      constructor
      · rw [h1]
        have hex : ∃ i ∈ x :: xs, flag = name i := ⟨x, List.mem_cons_self x xs, hx⟩
        rw [if_pos hex]
        split <;> rfl
      · intro j
        rw [h2 j]
        by_cases hj : j ∈ xs ∧ flag = name j
        · rw [if_pos hj, if_pos ⟨List.mem_cons_of_mem x hj.1, hj.2⟩]
        · rw [if_neg hj]
          by_cases hjx : j = x
          · subst hjx
            rw [setStream_self, if_pos ⟨List.mem_cons_self j xs, hx⟩]
          · rw [setStream_of_ne u x j hjx]
            have hn : ¬ (j ∈ x :: xs ∧ flag = name j) := by
              rintro ⟨hm, hf⟩
              rcases List.mem_cons.mp hm with h | h
              · exact hjx h
              · exact hj ⟨h, hf⟩
            rw [if_neg hn]
    · simp only [if_neg hx]
      obtain ⟨h1, h2⟩ := ih e u
      constructor
      · rw [h1]
        have hiff : (∃ i ∈ x :: xs, flag = name i) ↔ (∃ i ∈ xs, flag = name i) := by
          constructor
          · rintro ⟨i, hi, hf⟩
            rcases List.mem_cons.mp hi with h | h
            · subst h
              exact absurd hf hx
            · exact ⟨i, h, hf⟩
          · rintro ⟨i, hi, hf⟩
            exact ⟨i, List.mem_cons_of_mem x hi, hf⟩
        by_cases hex : ∃ i ∈ xs, flag = name i
        · rw [if_pos hex, if_pos (hiff.mpr hex)]
        · rw [if_neg hex, if_neg (fun h => hex (hiff.mp h))]
      · intro j
        rw [h2 j]
        have hiff : (j ∈ x :: xs ∧ flag = name j) ↔ (j ∈ xs ∧ flag = name j) := by
          constructor
          · rintro ⟨hm, hf⟩
            rcases List.mem_cons.mp hm with h | h
            · subst h
              exact absurd hf hx
            · exact ⟨h, hf⟩
          · rintro ⟨hm, hf⟩
            exact ⟨List.mem_cons_of_mem x hm, hf⟩
        by_cases hj : j ∈ xs ∧ flag = name j
        · rw [if_pos hj, if_pos (hiff.mpr hj)]
        · rw [if_neg hj, if_neg (fun h => hj (hiff.mp h))]

theorem matchStreamNames_error (st : LogStreams) (flag : String) (u : Nat → Int) :
    ((matchStreamNames st flag u).1 = 0 ∨ (matchStreamNames st flag u).1 = 1)
      ∧ ((matchStreamNames st flag u).1 ≠ 0 ↔ unknownStreamName st flag) := by
  unfold matchStreamNames
  rw [(foldl_matchStream st.LOG_STREAM_NAME flag _ 1 u).1]
  have hiff : (∃ i ∈ List.range' st.firstOMCErrorStream (st.LOG_MAX - st.firstOMCErrorStream),
      flag = st.LOG_STREAM_NAME i) ↔ ¬ unknownStreamName st flag := by
    unfold unknownStreamName
    constructor
    · rintro ⟨i, hi, hf⟩ hall
      rw [List.mem_range'_1] at hi
      exact hall i hi.1 (by omega) hf.symm
    · intro h
      by_contra hno
      apply h
      intro i h1 h2 hf
      exact hno ⟨i, List.mem_range'_1.mpr ⟨h1, by omega⟩, hf.symm⟩
  by_cases hex : ∃ i ∈ List.range' st.firstOMCErrorStream
      (st.LOG_MAX - st.firstOMCErrorStream), flag = st.LOG_STREAM_NAME i
  · rw [if_pos hex]
    exact ⟨Or.inl rfl, ⟨fun h => absurd rfl h, fun h => absurd h (hiff.mp hex)⟩⟩
  · rw [if_neg hex]
    refine ⟨Or.inr rfl, ⟨fun _ => ?_, fun _ => one_ne_zero⟩⟩
    by_contra hk
    exact hex (hiff.mpr hk)

theorem matchStreamNames_streams (st : LogStreams) (flag : String) (u : Nat → Int) (j : Nat) :
    (matchStreamNames st flag u).2 j = u j ∨ (matchStreamNames st flag u).2 j = 1 := by
  unfold matchStreamNames
  rw [(foldl_matchStream st.LOG_STREAM_NAME flag _ 1 u).2 j]
  split
  · exact Or.inr rfl
  · exact Or.inl rfl

theorem flagValued_matchStreamNames (st : LogStreams) (flag : String) (u : Nat → Int)
    (h : flagValued u) : flagValued (matchStreamNames st flag u).2 := by
  intro j
  rcases matchStreamNames_streams st flag u j with e | e <;> rw [e]
  · exact h j
  · exact Or.inr rfl

theorem commaTokens_ne_nil (l : List Char) : commaTokens l ≠ [] := by
  cases l with
  | nil => simp [commaTokens]
  | cons c cs =>
    unfold commaTokens
    split
    · simp
    · split <;> simp

theorem find_comma_none (l : List Char) (h : find_comma l = none) : commaTokens l = [l] := by
  induction l with
  | nil => rfl
  | cons c cs ih =>
    unfold find_comma at h
    split at h
    · cases h
    · rename_i hc
      have hcs : find_comma cs = none := by
        cases hf : find_comma cs with
        | none => rfl
        | some p => rw [hf] at h; cases h
      unfold commaTokens
      rw [if_neg hc, ih hcs]

theorem find_comma_some (l : List Char) (p : Nat) (h : find_comma l = some p) :
    p < l.length ∧ commaTokens l = l.take p :: commaTokens (l.drop (p + 1)) := by
  induction l generalizing p with
  | nil => cases h
  | cons c cs ih =>
    unfold find_comma at h
    split at h
    · rename_i hc
      simp only [Option.some.injEq] at h
      subst h
      refine ⟨by simp, ?_⟩
      simp only [commaTokens, if_pos hc, List.take_zero, Nat.zero_add, List.drop_succ_cons,
        List.drop_zero]
    · rename_i hc
      cases hf : find_comma cs with
      | none => rw [hf] at h; cases h
      | some q =>
        rw [hf] at h
        simp only [Option.map_some', Option.some.injEq] at h
        subst h
        obtain ⟨hq, htok⟩ := ih q hf
        refine ⟨by simp; omega, ?_⟩
        simp only [commaTokens, if_neg hc, htok, List.take_succ_cons, List.drop_succ_cons]

theorem findText_iff_occurs (pat l : List Char) : findText pat l = true ↔ pat <:+: l := by
  induction l with
  | nil => simp [findText]
  | cons c cs ih =>
    unfold findText
    rw [Bool.or_eq_true, ih, List.infix_cons_iff, List.isPrefixOf_iff_prefix]

theorem condSet_cases (c : Prop) [Decidable c] (u : Nat → Int) (t j : Nat) :
    (if c then setStream u t else u) j = u j ∨ (if c then setStream u t else u) j = 1 := by
  split
  · exact setStream_cases u t j
  · exact Or.inl rfl

theorem flagValued_condSet (c : Prop) [Decidable c] (u : Nat → Int) (t : Nat)
    (h : flagValued u) : flagValued (if c then setStream u t else u) := by
  intro j
  rcases condSet_cases c u t j with e | e <;> rw [e]
  · exact h j
  · exact Or.inr rfl

theorem applyStreamDefaults_cases (st : LogStreams) (u : Nat → Int) (j : Nat) :
    applyStreamDefaults st u j = u j ∨ applyStreamDefaults st u j = 1 := by
  have key : ∀ (a b : Nat → Int), (∀ j, a j = u j ∨ a j = 1) → (∀ j, b j = a j ∨ b j = 1) →
      ∀ j, b j = u j ∨ b j = 1 := by
    intro a b ha hb j
    rcases hb j with e | e
    · rw [e]
      exact ha j
    · exact Or.inr e
  unfold applyStreamDefaults
  refine key _ _ (key _ _ (key _ _ (key _ _ (key _ _ (key _ _ (key _ _
    (fun j => setStream_cases u _ j) (fun j => setStream_cases _ _ j))
    (fun j => condSet_cases _ _ _ j)) (fun j => condSet_cases _ _ _ j))
    (fun j => condSet_cases _ _ _ j)) (fun j => condSet_cases _ _ _ j))
    (fun j => condSet_cases _ _ _ j)) (fun j => condSet_cases _ _ _ j) j

theorem applyStreamDefaults_mono (st : LogStreams) (u : Nat → Int) (j : Nat) (h : u j ≠ 0) :
    applyStreamDefaults st u j ≠ 0 := by
  rcases applyStreamDefaults_cases st u j with e | e <;> rw [e]
  · exact h
  · exact one_ne_zero

theorem foldl_log_useStream (f : Nat → Event) (l : List Nat) (s : Runtime) :
    (l.foldl (fun s i => s.log (f i)) s).useStream = s.useStream := by
  induction l generalizing s with
  | nil => rfl
  | cons x xs ih =>
    rw [List.foldl_cons, ih]
    rfl

theorem reportStreamsAndThrow_spec (st : LogStreams) (flags : String) (s : Runtime) :
    (reportStreamsAndThrow st flags s).1 = Control.longjmp JumpBuffer.globalJmpbuf 1
      ∧ (reportStreamsAndThrow st flags s).2.useStream = s.useStream := by
  unfold reportStreamsAndThrow
  refine ⟨rfl, ?_⟩
  simp only [Runtime.THROW]
  rw [foldl_log_useStream]
  rfl

/-- The loop over the `-lv` value ends within `flagList.length + 1` rounds: it
returns, or it takes the `THROW`, and it takes the `THROW` iff one of the
comma-separated tokens is the name of no selectable stream. -/
theorem scanFlagList_result (st : LogStreams) (flags : String) :
    ∀ (rounds : Nat) (flagList : List Char) (s : Runtime), flagList.length < rounds →
      ∃ r, scanFlagList st flags rounds flagList s = some r
        ∧ (r.1 = Control.returned 0 ∨ r.1 = Control.longjmp JumpBuffer.globalJmpbuf 1)
        ∧ (r.1 = Control.longjmp JumpBuffer.globalJmpbuf 1
            ↔ ∃ t ∈ commaTokens flagList, unknownStreamName st (String.mk t))
        ∧ (flagValued s.useStream → flagValued r.2.useStream) := by
  intro rounds
  induction rounds with
  | zero => intro flagList s h; omega
  | succ n ih =>
    intro flagList s hlen
    have herr := matchStreamNames_error st
    cases hpos : find_comma flagList with
    | none =>
      have htok := find_comma_none flagList hpos
      by_cases he : (matchStreamNames st (String.mk flagList) s.useStream).1 ≠ 0
      · refine ⟨reportStreamsAndThrow st flags
          { s with useStream := (matchStreamNames st (String.mk flagList) s.useStream).2 },
          ?_, Or.inr (reportStreamsAndThrow_spec _ _ _).1, ?_, ?_⟩
        · simp only [scanFlagList, hpos, if_pos he]
        · refine ⟨fun _ => ⟨flagList, ?_, ((herr _ _).2).mp he⟩,
            fun _ => (reportStreamsAndThrow_spec _ _ _).1⟩
          rw [htok]
          exact List.mem_singleton_self _
        · intro h01
          rw [(reportStreamsAndThrow_spec _ _ _).2]
          exact flagValued_matchStreamNames st _ _ h01
      · refine ⟨(Control.returned 0,
          { s with useStream := (matchStreamNames st (String.mk flagList) s.useStream).2 }),
          ?_, Or.inl rfl, ?_, ?_⟩
        · simp only [scanFlagList, hpos, if_neg he]
        · constructor
          · intro h
            cases h
          · rintro ⟨t, ht, hun⟩
            rw [htok, List.mem_singleton] at ht
            subst ht
            exact absurd (((herr _ _).2).mpr hun) he
        · intro h01
          exact flagValued_matchStreamNames st _ _ h01
    | some p =>
      obtain ⟨hp, htok⟩ := find_comma_some flagList p hpos
      by_cases he : (matchStreamNames st (String.mk (flagList.take p)) s.useStream).1 ≠ 0
      · refine ⟨reportStreamsAndThrow st flags
          { s with
            useStream := (matchStreamNames st (String.mk (flagList.take p)) s.useStream).2 },
          ?_, Or.inr (reportStreamsAndThrow_spec _ _ _).1, ?_, ?_⟩
        · simp only [scanFlagList, hpos, if_pos he]
        · refine ⟨fun _ => ⟨flagList.take p, ?_, ((herr _ _).2).mp he⟩,
            fun _ => (reportStreamsAndThrow_spec _ _ _).1⟩
          rw [htok]
          exact List.mem_cons_self _ _
        · intro h01
          rw [(reportStreamsAndThrow_spec _ _ _).2]
          exact flagValued_matchStreamNames st _ _ h01
      · have hrest : (flagList.drop (p + 1)).length < n := by
          rw [List.length_drop]
          omega
        obtain ⟨r, hr, hc, hiff, hval⟩ := ih (flagList.drop (p + 1))
          { s with
            useStream := (matchStreamNames st (String.mk (flagList.take p)) s.useStream).2 }
          hrest
        refine ⟨r, ?_, hc, ?_, ?_⟩
        · simp only [scanFlagList, hpos, if_neg he]
          exact hr
        · rw [hiff, htok]
          constructor
          · rintro ⟨t, ht, hun⟩
            exact ⟨t, List.mem_cons_of_mem _ ht, hun⟩
          · rintro ⟨t, ht, hun⟩
            rcases List.mem_cons.mp ht with h | h
            · subst h
              exact absurd (((herr _ _).2).mpr hun) he
            · exact ⟨t, h, hun⟩
        · intro h01
          exact hval (flagValued_matchStreamNames st _ _ h01)

theorem setGlobalVerboseLevel_unfold (st : LogStreams) (omc_flag : Flag → Int)
    (omc_flagValue : Flag → Option String) (s : Runtime) :
    ∃ s0 : Runtime, s0.useStream = s.useStream
      ∧ setGlobalVerboseLevel st omc_flag omc_flagValue s =
        (match omc_flagValue Flag.FLAG_LV with
        | none =>
          some (Control.returned 0,
            { s0 with
              useStream := setStream (setStream s0.useStream st.LOG_STDOUT) st.LOG_ASSERT })
        | some flags =>
          if findText "LOG_ALL".data flags.data then
            some (Control.returned 0,
              { s0 with useStream := applyStreamDefaults st (enableAllStreams st s0.useStream) })
          else
            match scanFlagList st flags (flags.data.length + 1) flags.data s0 with
            | none => none
            | some r =>
              match r.1 with
              | Control.returned _ =>
                some (Control.returned 0,
                  { r.2 with useStream := applyStreamDefaults st r.2.useStream })
              | _ => some r) := by
  refine ⟨if omc_flag Flag.FLAG_W ≠ 0 then { s with showAllWarnings := 1 } else s, ?_, rfl⟩
  split <;> rfl

/-! ## Verbosity streams: the claims -/

/-- C18: `setGlobalVerboseLevel` treats "LOG_ALL" as a substring test. For every
`-lv` value that contains the text "LOG_ALL" anywhere, the call returns normally
and every stream with index `1 .. LOG_MAX-1` is enabled. For a value that does
not contain "LOG_ALL", the call ends by a return or by the `THROW` of the
unrecognized option, and it takes the `THROW` iff at least one of the
comma-separated tokens of the value (an empty token included) is the name of no
stream in `firstOMCErrorStream .. LOG_MAX-1`. -/
theorem setGlobalVerboseLevel_LOG_ALL (st : LogStreams) (omc_flag : Flag → Int)
    (omc_flagValue : Flag → Option String) (s : Runtime) (lv : String)
    (hlv : omc_flagValue Flag.FLAG_LV = some lv) :
    ("LOG_ALL".data <:+: lv.data →
        ∃ s', setGlobalVerboseLevel st omc_flag omc_flagValue s = some (Control.returned 0, s')
          ∧ ∀ i, 1 ≤ i → i < st.LOG_MAX → s'.useStream i = 1)
      ∧ (¬ "LOG_ALL".data <:+: lv.data →
        ∃ r, setGlobalVerboseLevel st omc_flag omc_flagValue s = some r
          ∧ (r.1 = Control.returned 0 ∨ r.1 = Control.longjmp JumpBuffer.globalJmpbuf 1)
          ∧ (r.1 = Control.longjmp JumpBuffer.globalJmpbuf 1
              ↔ ∃ t ∈ lvTokens lv, unknownStreamName st t)) := by
  obtain ⟨s0, _, hdef⟩ := setGlobalVerboseLevel_unfold st omc_flag omc_flagValue s
  rw [hdef, hlv]
  simp only
  constructor
  · intro hin
    rw [if_pos ((findText_iff_occurs _ _).mpr hin)]
    refine ⟨_, rfl, ?_⟩
    intro i h1 h2
    simp only
    rcases applyStreamDefaults_cases st (enableAllStreams st s0.useStream) i with e | e
    · rw [e, enableAllStreams_spec, if_pos ⟨h1, h2⟩]
    · exact e
  · intro hin
    have hf : ¬ findText "LOG_ALL".data lv.data = true :=
      fun h => hin ((findText_iff_occurs _ _).mp h)
    rw [if_neg hf]
    obtain ⟨r, hr, hc, hiff, _⟩ := scanFlagList_result st lv (lv.data.length + 1)
      lv.data s0 (Nat.lt_succ_self _)
    have htok : (∃ t ∈ commaTokens lv.data, unknownStreamName st (String.mk t))
        ↔ ∃ t ∈ lvTokens lv, unknownStreamName st t := by
      unfold lvTokens
      constructor
      · rintro ⟨t, ht, hun⟩
        exact ⟨String.mk t, List.mem_map.mpr ⟨t, ht, rfl⟩, hun⟩
      · rintro ⟨t, ht, hun⟩
        obtain ⟨l, hl, rfl⟩ := List.mem_map.mp ht
        exact ⟨l, hl, hun⟩
    rw [hr]
    rcases hc with hc | hc
    · simp only [hc]
      refine ⟨_, rfl, Or.inl rfl, ?_⟩
      constructor
      · intro h
        cases h
      · intro h
        have hj := hiff.mpr (htok.mpr h)
        rw [hc] at hj
        cases hj
    · simp only [hc]
      exact ⟨r, rfl, Or.inr hc, ⟨fun h => htok.mp (hiff.mp h), fun _ => hc⟩⟩

/-- C18 at the sample streams: the value "xLOG_ALLy,foo" contains "LOG_ALL" inside
a longer token, next to a token that is no stream name; the call returns and
all streams are on. -/
theorem setGlobalVerboseLevel_LOG_ALL_witness :
    lvFlagValue "xLOG_ALLy,foo" Flag.FLAG_LV = some "xLOG_ALLy,foo"
      ∧ "LOG_ALL".data <:+: "xLOG_ALLy,foo".data
      ∧ ∃ s', setGlobalVerboseLevel sampleStreams noFlag (lvFlagValue "xLOG_ALLy,foo")
            (initialRuntime (sampleData "csv" "")) = some (Control.returned 0, s')
          ∧ ∀ i, 1 ≤ i → i < sampleStreams.LOG_MAX → s'.useStream i = 1 :=
  ⟨rfl, (findText_iff_occurs _ _).mp (by decide),
    (setGlobalVerboseLevel_LOG_ALL sampleStreams noFlag (lvFlagValue "xLOG_ALLy,foo")
      (initialRuntime (sampleData "csv" "")) "xLOG_ALLy,foo" rfl).1
      ((findText_iff_occurs _ _).mp (by decide))⟩

end SimulationRuntime
